import Mathlib

/-!
Shallow embedding of the combat-log analyser engine of this repository:
the tokenizer, timestamp decoder, amount search, event tracker and summary
builders of `src/parser.rs`, and the summary-cache handler of `src/api.rs`.

Modelling conventions:
* Rust `f64` values are modelled as `ℚ` (every constant appearing in the
  code — `15.0`, `0.5`, `60.0`, `100.0`, `0.01`, `10000.0` — is an exact
  decimal, and the claims under study are order/interval properties that
  are stable under this reading).
* Rust `u64`/`u32` are modelled as `Nat` and `i64` as `Int`; the string
  parsers enforce the machine ranges, and `u64::saturating_sub` coincides
  with truncated `Nat` subtraction.
* Rust `HashMap` is modelled as an association list with key-replacing
  insertion; the code never relies on iteration order (the spec declares
  map order arbitrary).
* Rust string `parse::<f64>` is modelled on optionally signed decimal
  digit strings with at most one fractional part — the only numeric forms
  the timestamp decoder ever feeds it.
-/

set_option synthInstance.maxSize 1024

namespace WowLog

/-- Numeric value of a decimal digit character. -/
def digitVal (c : Char) : Nat := c.toNat - '0'.toNat

/-- Parse a nonempty all-digit character list as a natural number. -/
def parseDigits (cs : List Char) : Option Nat :=
  if cs ≠ [] ∧ cs.all Char.isDigit then
    some (cs.foldl (fun a c => a * 10 + digitVal c) 0)
  else none

/-- Rust `str::parse::<u64>` on the digit strings fed to it, with the `u64` range check. -/
def rustParseU64 (s : String) : Option Nat :=
  (parseDigits s.toList).bind fun n => if n < 2 ^ 64 then some n else none

/-- Rust `str::parse::<u32>` on digit strings, with the `u32` range check. -/
def rustParseU32 (s : String) : Option Nat :=
  (parseDigits s.toList).bind fun n => if n < 2 ^ 32 then some n else none

/-- Rust `str::parse::<i64>`: optional sign, digits, `i64` range check. -/
def rustParseI64 (s : String) : Option Int :=
  let core : List Char → Option Int
    | '-' :: rest => (parseDigits rest).map fun n => -(n : Int)
    | '+' :: rest => (parseDigits rest).map fun n => (n : Int)
    | cs => (parseDigits cs).map fun n => (n : Int)
  (core s.toList).bind fun v =>
    if -(2 ^ 63) ≤ v ∧ v < 2 ^ 63 then some v else none

/-- Rust `str::parse::<f64>` restricted to optionally signed decimal literals
with at most one fractional part (the only shapes the timestamp decoder meets);
the value is represented exactly as a rational. -/
def rustParseF64 (s : String) : Option ℚ :=
  let dec : List Char → Option ℚ := fun cs =>
    let ip := cs.takeWhile (· ≠ '.')
    match cs.dropWhile (· ≠ '.') with
    | [] => (parseDigits ip).map fun n => (n : ℚ)
    | '.' :: fp =>
      match parseDigits ip, parseDigits fp with
      | some a, some b => some ((a : ℚ) + (b : ℚ) / (10 : ℚ) ^ fp.length)
      | _, _ => none
    | _ => none
  match s.toList with
  | '-' :: rest => (dec rest).map Neg.neg
  | cs => dec cs

/-- Rust `str::starts_with`, via character lists so that proofs can evaluate it. -/
def strStartsWith (s pre : String) : Bool := pre.toList.isPrefixOf s.toList

/-- Character-list split used to model Rust `str::split(char)`. -/
def splitListOnChar (c : Char) : List Char → List (List Char)
  | [] => [[]]
  | x :: xs =>
    if x = c then [] :: splitListOnChar c xs
    else
      match splitListOnChar c xs with
      | h :: t => (x :: h) :: t
      | [] => [[x]]

/-- Rust `str::split(char)` collected to a vector: empty pieces are kept. -/
def splitOnChar (c : Char) (s : String) : List String :=
  (splitListOnChar c s.toList).map String.mk

/-- Rust `str::to_lowercase` on the ASCII names this code compares. -/
def strToLower (s : String) : String := String.mk (s.toList.map Char.toLower)

/-- Value of a hexadecimal digit character. -/
def hexVal (c : Char) : Nat :=
  if c.isDigit then c.toNat - '0'.toNat
  else if 'a' ≤ c ∧ c ≤ 'f' then c.toNat - 'a'.toNat + 10
  else if 'A' ≤ c ∧ c ≤ 'F' then c.toNat - 'A'.toNat + 10
  else 0

/-- Hexadecimal digit test. -/
def isHexDigit (c : Char) : Bool :=
  c.isDigit || ('a' ≤ c && c ≤ 'f') || ('A' ≤ c && c ≤ 'F')

/-- Rust `u32::from_str_radix(s, 16)` with the `u32` range check. -/
def parseHexU32 (s : String) : Option Nat :=
  let cs := s.toList
  if cs ≠ [] ∧ cs.all isHexDigit then
    let n := cs.foldl (fun a c => a * 16 + hexVal c) 0
    if n < 2 ^ 32 then some n else none
  else none

/-- `parse_hex_or_dec` of `parser.rs`: parse a `0x`-prefixed hex or a decimal `u32`. -/
def parse_hex_or_dec (s : String) : Option Nat :=
  if strStartsWith s "0x" ∨ strStartsWith s "0X" then parseHexU32 (String.mk (s.toList.drop 2))
  else rustParseU32 s

/-- `unquote` of `parser.rs`: Rust `s.trim_matches('"')` removes every leading
and trailing double quote. -/
def unquote (s : String) : String :=
  String.mk (((s.toList.dropWhile (· = '"')).reverse.dropWhile (· = '"')).reverse)

/-- `wowhead_url` of `models.rs`. -/
def wowhead_url (spell_id : Nat) : String :=
  "https://www.wowhead.com/spell=" ++ toString spell_id

/-! ## Line tokenizer (`parse_csv_fields` of `parser.rs`) -/

/-- Quoted-field scan of `parse_csv_fields`: after the opening quote, the field
extends to the next `"` inclusive (or to end of input if unterminated). Returns
the field (quotes retained) and the rest of the input. -/
def pcfQuoted (rest : List Char) : List Char × List Char :=
  let inner := rest.takeWhile (· ≠ '"')
  match rest.dropWhile (· ≠ '"') with
  | '"' :: r2 => ('"' :: (inner ++ ['"']), r2)
  | _ => ('"' :: inner, [])

/-- Unquoted-field scan of `parse_csv_fields`: the field extends to the next
top-level comma, where `(`/`[` raise and `)`/`]` lower the bracket depth and a
comma stops the field only at depth `≤ 0`. -/
def pcfUnquoted : Int → List Char → List Char × List Char
  | _, [] => ([], [])
  | depth, c :: cs =>
    if c = ',' ∧ depth ≤ 0 then ([], c :: cs)
    else
      let d := if c = '(' ∨ c = '[' then depth + 1
               else if c = ')' ∨ c = ']' then depth - 1 else depth
      let p := pcfUnquoted d cs
      (c :: p.1, p.2)

/-- Consume the single trailing comma after a field, when present. -/
def pcfSkipComma : List Char → List Char
  | ',' :: cs => cs
  | cs => cs

/-- Field loop of `parse_csv_fields`. Every iteration consumes at least one
character, so fuel `length + 1` never runs out. -/
def pcfLoop : Nat → List Char → List (List Char)
  | 0, _ => []
  | fuel + 1, cs0 =>
    let cs := cs0.dropWhile (· = ' ')
    match cs with
    | [] => []
    | c :: rest =>
      if c = '"' then
        let p := pcfQuoted rest
        p.1 :: pcfLoop fuel (pcfSkipComma p.2)
      else
        let p := pcfUnquoted 0 cs
        p.1 :: pcfLoop fuel (pcfSkipComma p.2)

/-- `parse_csv_fields` of `parser.rs`: split an event payload into fields,
skipping leading spaces, keeping quotes on quoted fields, and honouring
bracket depth in unquoted fields. -/
def parse_csv_fields (s : String) : List String :=
  (pcfLoop (s.length + 1) s.toList).map String.mk

/-! ## Timestamp decoder (`parse_timestamp_to_secs` of `parser.rs`) -/

/-- Rust `ts.splitn(2, ' ')`: split at the first space only. -/
def splitn2Space (s : String) : List String :=
  let cs := s.toList
  match cs.dropWhile (· ≠ ' ') with
  | [] => [s]
  | _ :: tail => [String.mk (cs.takeWhile (· ≠ ' ')), String.mk tail]

/-- Final arithmetic of `parse_timestamp_to_secs`:
`((year·366 + month·31 + day)·86400) + hour·3600 + minute·60 + second + ms`. -/
def ts_from_parts (day year_val month hour minute second ms : ℚ) : ℚ :=
  ((year_val * 366 + month * 31 + day) * 86400) + hour * 3600 + minute * 60 + second + ms

/-- `parse_timestamp_to_secs` of `parser.rs`: decode `MM/DD/YYYY HH:MM:SS.mmmm`
into the pseudo-second scalar; any missing or malformed component parses as `0`. -/
def parse_timestamp_to_secs (ts : String) : ℚ :=
  let parts := splitn2Space ts
  if parts.length < 2 then 0
  else
    let date_parts := splitOnChar '/' ((parts.get? 0).getD "")
    let time_parts := splitOnChar ':' ((parts.get? 1).getD "")
    if time_parts.length < 3 then 0
    else
      let day := ((date_parts.get? 1).bind rustParseF64).getD 0
      let year_val := ((date_parts.get? 2).bind rustParseF64).getD 0
      let month := ((date_parts.get? 0).bind rustParseF64).getD 0
      let hour := (rustParseF64 ((time_parts.get? 0).getD "")).getD 0
      let minute := (rustParseF64 ((time_parts.get? 1).getD "")).getD 0
      let sec_parts := splitOnChar '.' ((time_parts.get? 2).getD "")
      let second := (rustParseF64 ((sec_parts.get? 0).getD "")).getD 0
      let ms := (((sec_parts.get? 1).bind rustParseF64).getD 0) / 10000
      ts_from_parts day year_val month hour minute second ms

/-! ## Amount search (`find_damage_amount`, `find_heal_amount` of `parser.rs`) -/

/-- Rust `usize::wrapping_sub`: when the subtrahend exceeds the offset the wrapped
index is at least `2^64 − 2`, out of range for any realistic field vector, so it
is modelled as an always-missing index. -/
def wrapSub (o k : Nat) : Option Nat :=
  if k ≤ o then some (o - k) else none

/-- Parse the field at an (optional) index as an `i64`. -/
def parseAt (fields : List String) (i : Option Nat) : Option Int :=
  i.bind fun j => (fields.get? j).bind rustParseI64

/-- Fallback scan of `find_damage_amount`: accepts the first offset whose field
parses with `0 < val < 100_000_000`. -/
def amount_fallback (fields : List String) : List (Option Nat) → Nat
  | [] => 0
  | i :: rest =>
    match parseAt fields i with
    | some v => if 0 < v ∧ v < 100000000 then v.toNat else amount_fallback fields rest
    | none => amount_fallback fields rest

/-- `find_damage_amount` of `parser.rs`: the nominal offset accepts any
non-negative parse; the fallback offsets `[o−1, o+1, o−2, o+2]` accept only
`0 < val < 10^8`; otherwise `0`. -/
def find_damage_amount (fields : List String) (expected_offset : Nat) : Nat :=
  match parseAt fields (some expected_offset) with
  | some v =>
    if 0 ≤ v then v.toNat
    else amount_fallback fields
      [wrapSub expected_offset 1, some (expected_offset + 1),
       wrapSub expected_offset 2, some (expected_offset + 2)]
  | none => amount_fallback fields
      [wrapSub expected_offset 1, some (expected_offset + 1),
       wrapSub expected_offset 2, some (expected_offset + 2)]

/-- `find_heal_amount` of `parser.rs`: effective healing is the raw amount minus
the overhealing found two fields later; `Nat` subtraction is exactly
`u64::saturating_sub`. -/
def find_heal_amount (fields : List String) (expected_offset : Nat) : Nat :=
  let amount := find_damage_amount fields expected_offset
  let overheal := ((fields.get? (expected_offset + 2)).bind rustParseU64).getD 0
  amount - overheal

/-- Modelled from the claim's words (C5): try offsets
`[o, o−1, o+1, o−2, o+2]` in that order and return the first value that parses
as a non-negative integer below `10^8`, else `0`. -/
def find_damage_amount_claimed (fields : List String) (o : Nat) : Nat :=
  let probe : Option Nat → Option Nat := fun i =>
    match parseAt fields i with
    | some v => if 0 ≤ v ∧ v < 100000000 then some v.toNat else none
    | none => none
  (([some o, wrapSub o 1, some (o + 1), wrapSub o 2, some (o + 2)].findSome? probe)).getD 0

/-! ## Association-list model of `HashMap` -/

/-- `HashMap::get`. -/
def alookup {κ ν : Type} [DecidableEq κ] (k : κ) : List (κ × ν) → Option ν
  | [] => none
  | (k2, v) :: rest => if k2 = k then some v else alookup k rest

/-- `HashMap::insert`: replace the value under an existing key or append. -/
def ainsert {κ ν : Type} [DecidableEq κ] (k : κ) (v : ν) : List (κ × ν) → List (κ × ν)
  | [] => [(k, v)]
  | (k2, v2) :: rest => if k2 = k then (k2, v) :: rest else (k2, v2) :: ainsert k v rest

/-- `HashMap::entry(k).or_insert(d)` followed by an in-place mutation `f` of the
entry: the stored value becomes `f v` for an existing `v`, else `f d`. -/
def aupdate {κ ν : Type} [DecidableEq κ] (k : κ) (d : ν) (f : ν → ν) : List (κ × ν) → List (κ × ν)
  | [] => [(k, f d)]
  | (k2, v2) :: rest => if k2 = k then (k2, f v2) :: rest else (k2, v2) :: aupdate k d f rest

/-- `HashMap::remove` (dropping the returned value). -/
def aerase {κ ν : Type} [DecidableEq κ] (k : κ) (m : List (κ × ν)) : List (κ × ν) :=
  m.filter fun p => p.1 ≠ k

/-! ## Data model (`models.rs`) -/

/-- `RecapEvent` of `models.rs`. -/
structure RecapEvent where
  timestamp : String
  time_into_fight_secs : ℚ
  event_type : String
  amount : Nat
  spell_name : String
  spell_id : Nat
  source_name : String
  wh_url : String
  current_hp : Nat
  max_hp : Nat
deriving DecidableEq, Repr

/-- `DeathEvent` of `models.rs`. -/
structure DeathEvent where
  timestamp : String
  player_name : String
  player_guid : String
  killing_blow_spell : Option String
  killing_blow_source : Option String
  killing_blow_amount : Option Nat
  overkill : Option Int
  time_into_fight_secs : ℚ
  recap : List RecapEvent
deriving DecidableEq, Repr

/-- `BuffEvent` of `models.rs`. -/
structure BuffEvent where
  time : ℚ
  event_type : String
  «stacks» : Nat
deriving DecidableEq, Repr

/-- `BuffUptime` of `models.rs`. -/
structure BuffUptime where
  spell_id : Nat
  spell_name : String
  source_name : String
  uptime_secs : ℚ
  uptime_pct : ℚ
  avg_stacks : ℚ
  max_stacks : Nat
  wh_url : String
  timeline : List BuffEvent
deriving DecidableEq, Repr

/-- `EnemyPlayerDamage` of `models.rs`. -/
structure EnemyPlayerDamage where
  player_name : String
  class_name : String
  damage : Nat
deriving DecidableEq, Repr

/-- `EnemyBreakdown` of `models.rs`. -/
structure EnemyBreakdown where
  target_name : String
  total_damage : Nat
  kill_count : Nat
  mob_type : String
  players : List EnemyPlayerDamage
deriving DecidableEq, Repr

/-- `spec_info` of `parser.rs`: specialization id to (class, spec, role). -/
def spec_info (spec_id : Nat) : Option (String × String × String) :=
  match spec_id with
  | 71 => some ("Warrior", "Arms", "dps")
  | 72 => some ("Warrior", "Fury", "dps")
  | 73 => some ("Warrior", "Protection", "tank")
  | 65 => some ("Paladin", "Holy", "healer")
  | 66 => some ("Paladin", "Protection", "tank")
  | 70 => some ("Paladin", "Retribution", "dps")
  | 253 => some ("Hunter", "Beast Mastery", "dps")
  | 254 => some ("Hunter", "Marksmanship", "dps")
  | 255 => some ("Hunter", "Survival", "dps")
  | 259 => some ("Rogue", "Assassination", "dps")
  | 260 => some ("Rogue", "Outlaw", "dps")
  | 261 => some ("Rogue", "Subtlety", "dps")
  | 256 => some ("Priest", "Discipline", "healer")
  | 257 => some ("Priest", "Holy", "healer")
  | 258 => some ("Priest", "Shadow", "dps")
  | 250 => some ("Death Knight", "Blood", "tank")
  | 251 => some ("Death Knight", "Frost", "dps")
  | 252 => some ("Death Knight", "Unholy", "dps")
  | 262 => some ("Shaman", "Elemental", "dps")
  | 263 => some ("Shaman", "Enhancement", "dps")
  | 264 => some ("Shaman", "Restoration", "healer")
  | 62 => some ("Mage", "Arcane", "dps")
  | 63 => some ("Mage", "Fire", "dps")
  | 64 => some ("Mage", "Frost", "dps")
  | 265 => some ("Warlock", "Affliction", "dps")
  | 266 => some ("Warlock", "Demonology", "dps")
  | 267 => some ("Warlock", "Destruction", "dps")
  | 268 => some ("Monk", "Brewmaster", "tank")
  | 270 => some ("Monk", "Mistweaver", "healer")
  | 269 => some ("Monk", "Windwalker", "dps")
  | 102 => some ("Druid", "Balance", "dps")
  | 103 => some ("Druid", "Feral", "dps")
  | 104 => some ("Druid", "Guardian", "tank")
  | 105 => some ("Druid", "Restoration", "healer")
  | 577 => some ("Demon Hunter", "Havoc", "dps")
  | 581 => some ("Demon Hunter", "Vengeance", "tank")
  | 1467 => some ("Evoker", "Devastation", "dps")
  | 1468 => some ("Evoker", "Preservation", "healer")
  | 1473 => some ("Evoker", "Augmentation", "dps")
  | _ => none

/-! ## Event tracker state (`EventTracker` of `parser.rs`) -/

/-- Rust `f64 as u32` applied after `.max(0.0)`: truncation toward zero with
the saturating cast of `as`. -/
def f64_as_u32 (q : ℚ) : Nat :=
  min ((max q 0).num.toNat / (max q 0).den) (2 ^ 32 - 1)

/-- `EventTracker` of `parser.rs`: the full per-scope aggregation state.
Each `HashMap` is an association list; tuple values keep the Rust field order. -/
structure EventTracker where
  damage_by_player : List (String × List (Nat × (String × Nat × Nat × Nat))) := []
  healing_by_player : List (String × List (Nat × (String × Nat × Nat × Nat))) := []
  damage_taken_by_player : List (String × Nat) := []
  player_names : List (String × String) := []
  death_events : List DeathEvent := []
  player_death_counts : List (String × Nat) := []
  last_damage_to : List (String × (String × String × Nat × Int)) := []
  recent_events : List (String × List RecapEvent) := []
  player_specs : List (String × Nat) := []
  damage_targets : List (String × List (Nat × List (String × Nat))) := []
  healing_targets : List (String × List (Nat × List (String × Nat))) := []
  raw_aura_events : List (String × List (Nat × List (ℚ × String × Nat))) := []
  active_aura_stacks : List (String × List (Nat × Nat)) := []
  aura_spell_names : List (Nat × String) := []
  aura_sources : List ((String × Nat) × String) := []
  kill_counts : List (String × Nat) := []
  creature_types : List (String × String) := []
  last_creature_hp : List (String × (Nat × Nat)) := []
  current_phase : Nat := 1
  phase_transitions : List (ℚ × Nat) := []
  phase_damage_targets : List (Nat × List (String × Nat)) := []
  phase_creature_types : List (Nat × List (String × String)) := []
  boss_encounter_name : String := ""
  current_boss_hp_pct : ℚ := 100
  boss_max_hp_seen : Nat := 0
  encounter_start_secs : ℚ := 0
  time_bucketed_player_damage : List (Nat × List (String × Nat)) := []
  boss_hp_timeline : List (ℚ × ℚ) := []
deriving DecidableEq, Repr

/-- `EventTracker::new`. -/
def EventTracker.new : EventTracker := {}

/-- `EventTracker::new_with_context`: fresh tracker carrying over player identity. -/
def EventTracker.new_with_context (other : EventTracker) : EventTracker :=
  { EventTracker.new with
    player_specs := other.player_specs
    player_names := other.player_names }

/-- Recap-buffer push of `EventTracker::push_recap_event`: append, then when the
buffer exceeds 200 entries trim it to the last 60 seconds (measured from the
just-pushed event, which is the buffer's last element). -/
def pushRecapList (events : List RecapEvent) (event : RecapEvent) : List RecapEvent :=
  let events := events ++ [event]
  if 200 < events.length then
    let latest := ((events.getLast?).map (·.time_into_fight_secs)).getD 0
    events.filter fun e => decide (latest - e.time_into_fight_secs < 60)
  else events

/-- `EventTracker::push_recap_event`. -/
def EventTracker.push_recap_event (t : EventTracker) (guid : String) (event : RecapEvent) :
    EventTracker :=
  { t with recent_events := aupdate guid [] (fun evs => pushRecapList evs event) t.recent_events }

/-- Filter of `EventTracker::take_recap`: keep events of the 15 seconds before
death and drop `buff_removed` events within 0.5 s of death. -/
def takeRecapFilter (events : List RecapEvent) (death_time : ℚ) : List RecapEvent :=
  events.filter fun e =>
    (decide (death_time - e.time_into_fight_secs ≤ 15 ∧ e.time_into_fight_secs ≤ death_time)
      && ! decide (e.event_type = "buff_removed" ∧ |death_time - e.time_into_fight_secs| < 1/2))

/-- `EventTracker::take_recap`: remove the player's recap buffer and filter it. -/
def EventTracker.take_recap (t : EventTracker) (guid : String) (death_time : ℚ) :
    List RecapEvent × EventTracker :=
  let events := (alookup guid t.recent_events).getD []
  (takeRecapFilter events death_time, { t with recent_events := aerase guid t.recent_events })

/-! ## Combat-event processing (`process_combat_event` of `parser.rs`) -/

/-- GUID-prefix classification used for the creature-type maps. -/
def guidType (dest_guid : String) : String :=
  if strStartsWith dest_guid "Creature-" then "Creature"
  else if strStartsWith dest_guid "Vehicle-" then "Vehicle"
  else if strStartsWith dest_guid "Pet-" then "Pet"
  else "Other"

/-! Per-field updaters mirroring the in-place `HashMap` mutations of the Rust
tracker. Routing every mutation through one named function per field keeps the
embedded handlers equal to the Rust control flow while keeping terms small. -/

/-- Update `player_names` in place. -/
def with_player_names (f : List (String × String) → List (String × String))
    (t : EventTracker) : EventTracker :=
  { t with player_names := f t.player_names }

/-- Update `damage_by_player` in place. -/
def with_damage_by_player
    (f : List (String × List (Nat × (String × Nat × Nat × Nat))) →
      List (String × List (Nat × (String × Nat × Nat × Nat))))
    (t : EventTracker) : EventTracker :=
  { t with damage_by_player := f t.damage_by_player }

/-- Update `healing_by_player` in place. -/
def with_healing_by_player
    (f : List (String × List (Nat × (String × Nat × Nat × Nat))) →
      List (String × List (Nat × (String × Nat × Nat × Nat))))
    (t : EventTracker) : EventTracker :=
  { t with healing_by_player := f t.healing_by_player }

/-- Update `damage_taken_by_player` in place. -/
def with_damage_taken (f : List (String × Nat) → List (String × Nat))
    (t : EventTracker) : EventTracker :=
  { t with damage_taken_by_player := f t.damage_taken_by_player }

/-- Update `damage_targets` in place. -/
def with_damage_targets
    (f : List (String × List (Nat × List (String × Nat))) →
      List (String × List (Nat × List (String × Nat))))
    (t : EventTracker) : EventTracker :=
  { t with damage_targets := f t.damage_targets }

/-- Update `healing_targets` in place. -/
def with_healing_targets
    (f : List (String × List (Nat × List (String × Nat))) →
      List (String × List (Nat × List (String × Nat))))
    (t : EventTracker) : EventTracker :=
  { t with healing_targets := f t.healing_targets }

/-- Update `time_bucketed_player_damage` in place. -/
def with_time_bucketed
    (f : List (Nat × List (String × Nat)) → List (Nat × List (String × Nat)))
    (t : EventTracker) : EventTracker :=
  { t with time_bucketed_player_damage := f t.time_bucketed_player_damage }

/-- Update `creature_types` in place. -/
def with_creature_types (f : List (String × String) → List (String × String))
    (t : EventTracker) : EventTracker :=
  { t with creature_types := f t.creature_types }

/-- Update `last_creature_hp` in place. -/
def with_last_creature_hp
    (f : List (String × (Nat × Nat)) → List (String × (Nat × Nat)))
    (t : EventTracker) : EventTracker :=
  { t with last_creature_hp := f t.last_creature_hp }

/-- Move the boss watermark: set `boss_max_hp_seen` and `current_boss_hp_pct`. -/
def with_boss_watermark (m_hp : Nat) (pct : ℚ) (t : EventTracker) : EventTracker :=
  { t with boss_max_hp_seen := m_hp, current_boss_hp_pct := pct }

/-- Update `boss_hp_timeline` in place. -/
def with_boss_hp_timeline (f : List (ℚ × ℚ) → List (ℚ × ℚ))
    (t : EventTracker) : EventTracker :=
  { t with boss_hp_timeline := f t.boss_hp_timeline }

/-- Update `phase_damage_targets` in place. -/
def with_phase_damage_targets
    (f : List (Nat × List (String × Nat)) → List (Nat × List (String × Nat)))
    (t : EventTracker) : EventTracker :=
  { t with phase_damage_targets := f t.phase_damage_targets }

/-- Update `phase_creature_types` in place. -/
def with_phase_creature_types
    (f : List (Nat × List (String × String)) → List (Nat × List (String × String)))
    (t : EventTracker) : EventTracker :=
  { t with phase_creature_types := f t.phase_creature_types }

/-- Update `last_damage_to` in place. -/
def with_last_damage_to
    (f : List (String × (String × String × Nat × Int)) →
      List (String × (String × String × Nat × Int)))
    (t : EventTracker) : EventTracker :=
  { t with last_damage_to := f t.last_damage_to }

/-- Update `aura_spell_names` in place. -/
def with_aura_spell_names (f : List (Nat × String) → List (Nat × String))
    (t : EventTracker) : EventTracker :=
  { t with aura_spell_names := f t.aura_spell_names }

/-- Update `aura_sources` in place. -/
def with_aura_sources (f : List ((String × Nat) × String) → List ((String × Nat) × String))
    (t : EventTracker) : EventTracker :=
  { t with aura_sources := f t.aura_sources }

/-- Update `active_aura_stacks` in place. -/
def with_active_aura_stacks
    (f : List (String × List (Nat × Nat)) → List (String × List (Nat × Nat)))
    (t : EventTracker) : EventTracker :=
  { t with active_aura_stacks := f t.active_aura_stacks }

/-- Update `raw_aura_events` in place. -/
def with_raw_aura_events
    (f : List (String × List (Nat × List (ℚ × String × Nat))) →
      List (String × List (Nat × List (ℚ × String × Nat))))
    (t : EventTracker) : EventTracker :=
  { t with raw_aura_events := f t.raw_aura_events }

/-- Update `death_events` in place. -/
def with_death_events (f : List DeathEvent → List DeathEvent)
    (t : EventTracker) : EventTracker :=
  { t with death_events := f t.death_events }

/-- Update `player_death_counts` in place. -/
def with_player_death_counts (f : List (String × Nat) → List (String × Nat))
    (t : EventTracker) : EventTracker :=
  { t with player_death_counts := f t.player_death_counts }

/-- Update `kill_counts` in place. -/
def with_kill_counts (f : List (String × Nat) → List (String × Nat))
    (t : EventTracker) : EventTracker :=
  { t with kill_counts := f t.kill_counts }

/-- `SPELL_DAMAGE`-family arm of `process_combat_event`. -/
def handle_spell_damage (fields : List String) (timestamp_str : String)
    (timestamp_secs start_secs : ℚ)
    (source_guid source_name dest_guid dest_name : String)
    (t : EventTracker) : EventTracker :=
  let spell_id := ((fields.get? 9).bind rustParseU64).getD 0
  let spell_name := ((fields.get? 10).map unquote).getD ""
  let spell_school := ((fields.get? 11).bind parse_hex_or_dec).getD 0
  let amount := find_damage_amount fields 31
  let t :=
    if strStartsWith source_guid "Player-" ∧ 0 < amount then
      let t := with_damage_by_player
        (aupdate source_guid []
          (aupdate spell_id (spell_name, spell_school, 0, 0)
            (fun e => (e.1, e.2.1, e.2.2.1 + amount, e.2.2.2 + 1)))) t
      let t := with_damage_targets
        (aupdate source_guid []
          (aupdate spell_id [] (aupdate dest_name 0 (· + amount)))) t
      let t :=
        if 0 < t.encounter_start_secs then
          with_time_bucketed
            (aupdate (f64_as_u32 (timestamp_secs - t.encounter_start_secs)) []
              (aupdate source_guid 0 (· + amount))) t
        else t
      if ¬ strStartsWith dest_guid "Player-" ∧ dest_name ≠ "" then
        let gt := guidType dest_guid
        let t := with_creature_types (aupdate dest_name gt id) t
        let c_hp := ((fields.get? 14).bind rustParseU64).getD 0
        let m_hp := ((fields.get? 15).bind rustParseU64).getD 0
        let t :=
          if 0 < m_hp then
            let t := with_last_creature_hp (ainsert dest_name (c_hp, m_hp)) t
            if t.boss_encounter_name ≠ "" ∧ t.boss_max_hp_seen ≤ m_hp then
              let t := with_boss_watermark m_hp ((c_hp : ℚ) / (m_hp : ℚ) * 100) t
              if 0 < t.encounter_start_secs then
                with_boss_hp_timeline
                  (fun tl => tl ++
                    [(timestamp_secs - t.encounter_start_secs, t.current_boss_hp_pct)]) t
              else t
            else t
          else t
        let t := with_phase_damage_targets
          (aupdate t.current_phase [] (aupdate dest_name 0 (· + amount))) t
        with_phase_creature_types
          (aupdate t.current_phase [] (aupdate dest_name gt id)) t
      else t
    else t
  if strStartsWith dest_guid "Player-" ∧ 0 < amount then
    let t := with_damage_taken (aupdate dest_guid 0 (· + amount)) t
    let overkill := ((fields.get? 33).bind rustParseI64).getD (-1)
    let t := with_last_damage_to
      (ainsert dest_guid (spell_name, source_name, amount, overkill)) t
    let current_hp := ((fields.get? 14).bind rustParseU64).getD 0
    let max_hp := ((fields.get? 15).bind rustParseU64).getD 0
    t.push_recap_event dest_guid
      { timestamp := timestamp_str, time_into_fight_secs := timestamp_secs - start_secs,
        event_type := "damage", amount, spell_name, spell_id, source_name,
        wh_url := wowhead_url spell_id, current_hp, max_hp }
  else t

/-- `SWING_DAMAGE`-family arm of `process_combat_event`: synthetic spell 0
("Melee", school 1), amount offset 28, HP at fields 11/12, overkill at 30. -/
def handle_swing_damage (fields : List String) (timestamp_str : String)
    (timestamp_secs start_secs : ℚ)
    (source_guid source_name dest_guid dest_name : String)
    (t : EventTracker) : EventTracker :=
  let amount := find_damage_amount fields 28
  let t :=
    if strStartsWith source_guid "Player-" ∧ 0 < amount then
      let t := with_damage_by_player
        (aupdate source_guid []
          (aupdate 0 ("Melee", 1, 0, 0)
            (fun e => (e.1, e.2.1, e.2.2.1 + amount, e.2.2.2 + 1)))) t
      let t := with_damage_targets
        (aupdate source_guid []
          (aupdate 0 [] (aupdate dest_name 0 (· + amount)))) t
      let t :=
        if 0 < t.encounter_start_secs then
          with_time_bucketed
            (aupdate (f64_as_u32 (timestamp_secs - t.encounter_start_secs)) []
              (aupdate source_guid 0 (· + amount))) t
        else t
      if ¬ strStartsWith dest_guid "Player-" ∧ dest_name ≠ "" then
        with_phase_damage_targets
          (aupdate t.current_phase [] (aupdate dest_name 0 (· + amount))) t
      else t
    else t
  if strStartsWith dest_guid "Player-" ∧ 0 < amount then
    let t := with_damage_taken (aupdate dest_guid 0 (· + amount)) t
    let overkill := ((fields.get? 30).bind rustParseI64).getD (-1)
    let t := with_last_damage_to
      (ainsert dest_guid ("Melee", source_name, amount, overkill)) t
    let current_hp := ((fields.get? 11).bind rustParseU64).getD 0
    let max_hp := ((fields.get? 12).bind rustParseU64).getD 0
    t.push_recap_event dest_guid
      { timestamp := timestamp_str, time_into_fight_secs := timestamp_secs - start_secs,
        event_type := "damage", amount, spell_name := "Melee", spell_id := 0, source_name,
        wh_url := "", current_hp, max_hp }
  else t

/-- `SPELL_HEAL`-family arm of `process_combat_event`: effective healing counts
toward totals, raw healing goes on the death recap. -/
def handle_heal (fields : List String) (timestamp_str : String)
    (timestamp_secs start_secs : ℚ)
    (source_guid source_name dest_guid dest_name : String)
    (t : EventTracker) : EventTracker :=
  let spell_id := ((fields.get? 9).bind rustParseU64).getD 0
  let spell_name := ((fields.get? 10).map unquote).getD ""
  let spell_school := ((fields.get? 11).bind parse_hex_or_dec).getD 0
  let effective_amount := find_heal_amount fields 31
  let raw_amount := find_damage_amount fields 31
  let t :=
    if strStartsWith source_guid "Player-" ∧ 0 < effective_amount then
      let t := with_healing_by_player
        (aupdate source_guid []
          (aupdate spell_id (spell_name, spell_school, 0, 0)
            (fun e => (e.1, e.2.1, e.2.2.1 + effective_amount, e.2.2.2 + 1)))) t
      with_healing_targets
        (aupdate source_guid []
          (aupdate spell_id [] (aupdate dest_name 0 (· + effective_amount)))) t
    else t
  if strStartsWith dest_guid "Player-" ∧ 0 < raw_amount then
    let current_hp := ((fields.get? 14).bind rustParseU64).getD 0
    let max_hp := ((fields.get? 15).bind rustParseU64).getD 0
    t.push_recap_event dest_guid
      { timestamp := timestamp_str, time_into_fight_secs := timestamp_secs - start_secs,
        event_type := "healing", amount := raw_amount, spell_name, spell_id, source_name,
        wh_url := wowhead_url spell_id, current_hp, max_hp }
  else t

/-- `SPELL_AURA_APPLIED` / `SPELL_AURA_REFRESH` arm of `process_combat_event`. -/
def handle_aura_applied (fields : List String) (timestamp_str : String)
    (timestamp_secs start_secs : ℚ)
    (source_name dest_guid : String)
    (t : EventTracker) : EventTracker :=
  if strStartsWith dest_guid "Player-" then
    let spell_id := ((fields.get? 9).bind rustParseU64).getD 0
    let spell_name := ((fields.get? 10).map unquote).getD ""
    let t :=
      if 0 < spell_id then
        let t := with_aura_spell_names (ainsert spell_id spell_name) t
        let t := with_aura_sources (ainsert (dest_guid, spell_id) source_name) t
        let t := with_active_aura_stacks
          (aupdate dest_guid [] (aupdate spell_id 0 (fun _ => 1))) t
        with_raw_aura_events
          (aupdate dest_guid []
            (aupdate spell_id []
              (fun evs => evs ++ [(timestamp_secs - start_secs, "apply", 1)]))) t
      else t
    t.push_recap_event dest_guid
      { timestamp := timestamp_str, time_into_fight_secs := timestamp_secs - start_secs,
        event_type := "buff_applied", amount := 0, spell_name, spell_id, source_name,
        wh_url := wowhead_url spell_id, current_hp := 0, max_hp := 0 }
  else t

/-- `SPELL_AURA_REMOVED` arm of `process_combat_event`. -/
def handle_aura_removed (fields : List String) (timestamp_str : String)
    (timestamp_secs start_secs : ℚ)
    (source_name dest_guid : String)
    (t : EventTracker) : EventTracker :=
  if strStartsWith dest_guid "Player-" then
    let spell_id := ((fields.get? 9).bind rustParseU64).getD 0
    let spell_name := ((fields.get? 10).map unquote).getD ""
    let t :=
      if 0 < spell_id then
        let t := with_aura_spell_names (ainsert spell_id spell_name) t
        let t := with_active_aura_stacks
          (aupdate dest_guid []
            (fun m => if (alookup spell_id m).isSome then ainsert spell_id 0 m else m)) t
        with_raw_aura_events
          (aupdate dest_guid []
            (aupdate spell_id []
              (fun evs => evs ++ [(timestamp_secs - start_secs, "remove", 0)]))) t
      else t
    t.push_recap_event dest_guid
      { timestamp := timestamp_str, time_into_fight_secs := timestamp_secs - start_secs,
        event_type := "buff_removed", amount := 0, spell_name, spell_id, source_name,
        wh_url := wowhead_url spell_id, current_hp := 0, max_hp := 0 }
  else t

/-- `SPELL_AURA_APPLIED_DOSE` arm of `process_combat_event`: records a `stack`
timeline event only when the new stack count (field 15) is positive. -/
def handle_aura_applied_dose (fields : List String)
    (timestamp_secs start_secs : ℚ) (dest_guid : String)
    (t : EventTracker) : EventTracker :=
  if strStartsWith dest_guid "Player-" then
    let spell_id := ((fields.get? 9).bind rustParseU64).getD 0
    let new_stacks := ((fields.get? 15).bind rustParseU32).getD 0
    if 0 < spell_id ∧ 0 < new_stacks then
      let t := with_active_aura_stacks
        (aupdate dest_guid [] (aupdate spell_id 0 (fun _ => new_stacks))) t
      with_raw_aura_events
        (aupdate dest_guid []
          (aupdate spell_id []
            (fun evs => evs ++ [(timestamp_secs - start_secs, "stack", new_stacks)]))) t
    else t
  else t

/-- `SPELL_AURA_REMOVED_DOSE` arm of `process_combat_event`: records a `stack`
timeline event with the new stack count, which may be `0`. -/
def handle_aura_removed_dose (fields : List String)
    (timestamp_secs start_secs : ℚ) (dest_guid : String)
    (t : EventTracker) : EventTracker :=
  if strStartsWith dest_guid "Player-" then
    let spell_id := ((fields.get? 9).bind rustParseU64).getD 0
    let new_stacks := ((fields.get? 15).bind rustParseU32).getD 0
    if 0 < spell_id then
      let t := with_active_aura_stacks
        (aupdate dest_guid [] (aupdate spell_id 0 (fun _ => new_stacks))) t
      with_raw_aura_events
        (aupdate dest_guid []
          (aupdate spell_id []
            (fun evs => evs ++ [(timestamp_secs - start_secs, "stack", new_stacks)]))) t
    else t
  else t

/-- `UNIT_DIED` arm of `process_combat_event`. -/
def handle_unit_died (timestamp_str : String)
    (timestamp_secs start_secs : ℚ)
    (dest_guid dest_name : String)
    (t : EventTracker) : EventTracker :=
  if strStartsWith dest_guid "Player-" then
    let kb := (alookup dest_guid t.last_damage_to).getD ("Unknown", "Unknown", 0, -1)
    let time_into_fight := timestamp_secs - start_secs
    let p := t.take_recap dest_guid time_into_fight
    let t := p.2
    let overkill : Option Int := if 0 < kb.2.2.2 then some kb.2.2.2 else none
    let t := with_death_events
      (fun ds => ds ++
        [{ timestamp := timestamp_str, player_name := dest_name, player_guid := dest_guid,
           killing_blow_spell := some kb.1, killing_blow_source := some kb.2.1,
           killing_blow_amount := some kb.2.2.1, overkill,
           time_into_fight_secs := time_into_fight, recap := p.1 }]) t
    with_player_death_counts (aupdate dest_guid 0 (· + 1)) t
  else
    let t := with_kill_counts (aupdate dest_name 0 (· + 1)) t
    with_creature_types (aupdate dest_name (guidType dest_guid) id) t

/-- Player-name registration at the top of `process_combat_event`. -/
def register_names (fields : List String) (t : EventTracker) : EventTracker :=
  let source_guid := (fields.get? 1).getD ""
  let source_name := ((fields.get? 2).map unquote).getD ""
  let dest_guid := (fields.get? 5).getD ""
  let dest_name := ((fields.get? 6).map unquote).getD ""
  let t := if strStartsWith source_guid "Player-" ∧ source_name ≠ "" then
      with_player_names (ainsert source_guid source_name) t else t
  if strStartsWith dest_guid "Player-" ∧ dest_name ≠ "" then
      with_player_names (ainsert dest_guid dest_name) t else t

/-- `process_combat_event` of `parser.rs`: register player names, then dispatch
on the event-type text (the Rust `match` is written as the equivalent
first-match chain of equality tests). -/
def process_combat_event (event_type : String) (fields : List String)
    (timestamp_str : String) (timestamp_secs start_secs : ℚ)
    (t : EventTracker) : EventTracker :=
  let source_guid := (fields.get? 1).getD ""
  let source_name := ((fields.get? 2).map unquote).getD ""
  let dest_guid := (fields.get? 5).getD ""
  let dest_name := ((fields.get? 6).map unquote).getD ""
  let t := register_names fields t
  if event_type = "SPELL_DAMAGE" ∨ event_type = "SPELL_PERIODIC_DAMAGE" ∨
      event_type = "RANGE_DAMAGE" ∨ event_type = "SPELL_DAMAGE_SUPPORT" then
    handle_spell_damage fields timestamp_str timestamp_secs start_secs
      source_guid source_name dest_guid dest_name t
  else if event_type = "SWING_DAMAGE" ∨ event_type = "SWING_DAMAGE_LANDED" then
    handle_swing_damage fields timestamp_str timestamp_secs start_secs
      source_guid source_name dest_guid dest_name t
  else if event_type = "SPELL_HEAL" ∨ event_type = "SPELL_PERIODIC_HEAL" ∨
      event_type = "SPELL_HEAL_SUPPORT" then
    handle_heal fields timestamp_str timestamp_secs start_secs
      source_guid source_name dest_guid dest_name t
  else if event_type = "SPELL_AURA_APPLIED" ∨ event_type = "SPELL_AURA_REFRESH" then
    handle_aura_applied fields timestamp_str timestamp_secs start_secs source_name dest_guid t
  else if event_type = "SPELL_AURA_REMOVED" then
    handle_aura_removed fields timestamp_str timestamp_secs start_secs source_name dest_guid t
  else if event_type = "SPELL_AURA_APPLIED_DOSE" then
    handle_aura_applied_dose fields timestamp_secs start_secs dest_guid t
  else if event_type = "SPELL_AURA_REMOVED_DOSE" then
    handle_aura_removed_dose fields timestamp_secs start_secs dest_guid t
  else if event_type = "UNIT_DIED" then
    handle_unit_died timestamp_str timestamp_secs start_secs dest_guid dest_name t
  else t

/-! Frame lemmas: each per-field updater leaves the projections that the proofs
read unchanged (`rfl` each). -/

@[simp] theorem raw_with_player_names (f) (t : EventTracker) :
    (with_player_names f t).raw_aura_events = t.raw_aura_events := rfl
@[simp] theorem raw_with_damage_by_player (f) (t : EventTracker) :
    (with_damage_by_player f t).raw_aura_events = t.raw_aura_events := rfl
@[simp] theorem raw_with_healing_by_player (f) (t : EventTracker) :
    (with_healing_by_player f t).raw_aura_events = t.raw_aura_events := rfl
@[simp] theorem raw_with_damage_taken (f) (t : EventTracker) :
    (with_damage_taken f t).raw_aura_events = t.raw_aura_events := rfl
@[simp] theorem raw_with_damage_targets (f) (t : EventTracker) :
    (with_damage_targets f t).raw_aura_events = t.raw_aura_events := rfl
@[simp] theorem raw_with_healing_targets (f) (t : EventTracker) :
    (with_healing_targets f t).raw_aura_events = t.raw_aura_events := rfl
@[simp] theorem raw_with_time_bucketed (f) (t : EventTracker) :
    (with_time_bucketed f t).raw_aura_events = t.raw_aura_events := rfl
@[simp] theorem raw_with_creature_types (f) (t : EventTracker) :
    (with_creature_types f t).raw_aura_events = t.raw_aura_events := rfl
@[simp] theorem raw_with_last_creature_hp (f) (t : EventTracker) :
    (with_last_creature_hp f t).raw_aura_events = t.raw_aura_events := rfl
@[simp] theorem raw_with_boss_watermark (m : Nat) (p : ℚ) (t : EventTracker) :
    (with_boss_watermark m p t).raw_aura_events = t.raw_aura_events := rfl
@[simp] theorem raw_with_boss_hp_timeline (f) (t : EventTracker) :
    (with_boss_hp_timeline f t).raw_aura_events = t.raw_aura_events := rfl
@[simp] theorem raw_with_phase_damage_targets (f) (t : EventTracker) :
    (with_phase_damage_targets f t).raw_aura_events = t.raw_aura_events := rfl
@[simp] theorem raw_with_phase_creature_types (f) (t : EventTracker) :
    (with_phase_creature_types f t).raw_aura_events = t.raw_aura_events := rfl
@[simp] theorem raw_with_last_damage_to (f) (t : EventTracker) :
    (with_last_damage_to f t).raw_aura_events = t.raw_aura_events := rfl
@[simp] theorem raw_with_aura_spell_names (f) (t : EventTracker) :
    (with_aura_spell_names f t).raw_aura_events = t.raw_aura_events := rfl
@[simp] theorem raw_with_aura_sources (f) (t : EventTracker) :
    (with_aura_sources f t).raw_aura_events = t.raw_aura_events := rfl
@[simp] theorem raw_with_active_aura_stacks (f) (t : EventTracker) :
    (with_active_aura_stacks f t).raw_aura_events = t.raw_aura_events := rfl
@[simp] theorem raw_with_raw_aura_events (f) (t : EventTracker) :
    (with_raw_aura_events f t).raw_aura_events = f t.raw_aura_events := rfl
@[simp] theorem raw_with_death_events (f) (t : EventTracker) :
    (with_death_events f t).raw_aura_events = t.raw_aura_events := rfl
@[simp] theorem raw_with_player_death_counts (f) (t : EventTracker) :
    (with_player_death_counts f t).raw_aura_events = t.raw_aura_events := rfl
@[simp] theorem raw_with_kill_counts (f) (t : EventTracker) :
    (with_kill_counts f t).raw_aura_events = t.raw_aura_events := rfl
@[simp] theorem raw_push_recap_event (t : EventTracker) (g : String) (e : RecapEvent) :
    (t.push_recap_event g e).raw_aura_events = t.raw_aura_events := rfl
@[simp] theorem raw_take_recap_snd (t : EventTracker) (g : String) (dt : ℚ) :
    (t.take_recap g dt).2.raw_aura_events = t.raw_aura_events := rfl

@[simp] theorem healing_with_player_names (f) (t : EventTracker) :
    (with_player_names f t).healing_by_player = t.healing_by_player := rfl
@[simp] theorem healing_with_healing_targets (f) (t : EventTracker) :
    (with_healing_targets f t).healing_by_player = t.healing_by_player := rfl
@[simp] theorem healing_with_healing_by_player (f) (t : EventTracker) :
    (with_healing_by_player f t).healing_by_player = f t.healing_by_player := rfl
@[simp] theorem healing_push_recap_event (t : EventTracker) (g : String) (e : RecapEvent) :
    (t.push_recap_event g e).healing_by_player = t.healing_by_player := rfl


/-! Condition frame lemmas: the per-field updaters leave the scalar fields that
guard the handlers unchanged (`rfl` each). -/

@[simp] theorem ess_with_player_names (f) (t : EventTracker) :
    (with_player_names f t).encounter_start_secs = t.encounter_start_secs := rfl
@[simp] theorem ess_with_damage_by_player (f) (t : EventTracker) :
    (with_damage_by_player f t).encounter_start_secs = t.encounter_start_secs := rfl
@[simp] theorem ess_with_healing_by_player (f) (t : EventTracker) :
    (with_healing_by_player f t).encounter_start_secs = t.encounter_start_secs := rfl
@[simp] theorem ess_with_damage_taken (f) (t : EventTracker) :
    (with_damage_taken f t).encounter_start_secs = t.encounter_start_secs := rfl
@[simp] theorem ess_with_damage_targets (f) (t : EventTracker) :
    (with_damage_targets f t).encounter_start_secs = t.encounter_start_secs := rfl
@[simp] theorem ess_with_healing_targets (f) (t : EventTracker) :
    (with_healing_targets f t).encounter_start_secs = t.encounter_start_secs := rfl
@[simp] theorem ess_with_time_bucketed (f) (t : EventTracker) :
    (with_time_bucketed f t).encounter_start_secs = t.encounter_start_secs := rfl
@[simp] theorem ess_with_creature_types (f) (t : EventTracker) :
    (with_creature_types f t).encounter_start_secs = t.encounter_start_secs := rfl
@[simp] theorem ess_with_last_creature_hp (f) (t : EventTracker) :
    (with_last_creature_hp f t).encounter_start_secs = t.encounter_start_secs := rfl
@[simp] theorem ess_with_boss_hp_timeline (f) (t : EventTracker) :
    (with_boss_hp_timeline f t).encounter_start_secs = t.encounter_start_secs := rfl
@[simp] theorem ess_with_phase_damage_targets (f) (t : EventTracker) :
    (with_phase_damage_targets f t).encounter_start_secs = t.encounter_start_secs := rfl
@[simp] theorem ess_with_phase_creature_types (f) (t : EventTracker) :
    (with_phase_creature_types f t).encounter_start_secs = t.encounter_start_secs := rfl
@[simp] theorem ess_with_last_damage_to (f) (t : EventTracker) :
    (with_last_damage_to f t).encounter_start_secs = t.encounter_start_secs := rfl
@[simp] theorem ess_with_aura_spell_names (f) (t : EventTracker) :
    (with_aura_spell_names f t).encounter_start_secs = t.encounter_start_secs := rfl
@[simp] theorem ess_with_aura_sources (f) (t : EventTracker) :
    (with_aura_sources f t).encounter_start_secs = t.encounter_start_secs := rfl
@[simp] theorem ess_with_active_aura_stacks (f) (t : EventTracker) :
    (with_active_aura_stacks f t).encounter_start_secs = t.encounter_start_secs := rfl
@[simp] theorem ess_with_raw_aura_events (f) (t : EventTracker) :
    (with_raw_aura_events f t).encounter_start_secs = t.encounter_start_secs := rfl
@[simp] theorem ess_with_death_events (f) (t : EventTracker) :
    (with_death_events f t).encounter_start_secs = t.encounter_start_secs := rfl
@[simp] theorem ess_with_player_death_counts (f) (t : EventTracker) :
    (with_player_death_counts f t).encounter_start_secs = t.encounter_start_secs := rfl
@[simp] theorem ess_with_kill_counts (f) (t : EventTracker) :
    (with_kill_counts f t).encounter_start_secs = t.encounter_start_secs := rfl
@[simp] theorem ess_with_boss_watermark (m : Nat) (p : ℚ) (t : EventTracker) :
    (with_boss_watermark m p t).encounter_start_secs = t.encounter_start_secs := rfl
@[simp] theorem ess_push_recap_event (t : EventTracker) (g : String) (e : RecapEvent) :
    (t.push_recap_event g e).encounter_start_secs = t.encounter_start_secs := rfl

@[simp] theorem ben_with_player_names (f) (t : EventTracker) :
    (with_player_names f t).boss_encounter_name = t.boss_encounter_name := rfl
@[simp] theorem ben_with_damage_by_player (f) (t : EventTracker) :
    (with_damage_by_player f t).boss_encounter_name = t.boss_encounter_name := rfl
@[simp] theorem ben_with_healing_by_player (f) (t : EventTracker) :
    (with_healing_by_player f t).boss_encounter_name = t.boss_encounter_name := rfl
@[simp] theorem ben_with_damage_taken (f) (t : EventTracker) :
    (with_damage_taken f t).boss_encounter_name = t.boss_encounter_name := rfl
@[simp] theorem ben_with_damage_targets (f) (t : EventTracker) :
    (with_damage_targets f t).boss_encounter_name = t.boss_encounter_name := rfl
@[simp] theorem ben_with_healing_targets (f) (t : EventTracker) :
    (with_healing_targets f t).boss_encounter_name = t.boss_encounter_name := rfl
@[simp] theorem ben_with_time_bucketed (f) (t : EventTracker) :
    (with_time_bucketed f t).boss_encounter_name = t.boss_encounter_name := rfl
@[simp] theorem ben_with_creature_types (f) (t : EventTracker) :
    (with_creature_types f t).boss_encounter_name = t.boss_encounter_name := rfl
@[simp] theorem ben_with_last_creature_hp (f) (t : EventTracker) :
    (with_last_creature_hp f t).boss_encounter_name = t.boss_encounter_name := rfl
@[simp] theorem ben_with_boss_hp_timeline (f) (t : EventTracker) :
    (with_boss_hp_timeline f t).boss_encounter_name = t.boss_encounter_name := rfl
@[simp] theorem ben_with_phase_damage_targets (f) (t : EventTracker) :
    (with_phase_damage_targets f t).boss_encounter_name = t.boss_encounter_name := rfl
@[simp] theorem ben_with_phase_creature_types (f) (t : EventTracker) :
    (with_phase_creature_types f t).boss_encounter_name = t.boss_encounter_name := rfl
@[simp] theorem ben_with_last_damage_to (f) (t : EventTracker) :
    (with_last_damage_to f t).boss_encounter_name = t.boss_encounter_name := rfl
@[simp] theorem ben_with_aura_spell_names (f) (t : EventTracker) :
    (with_aura_spell_names f t).boss_encounter_name = t.boss_encounter_name := rfl
@[simp] theorem ben_with_aura_sources (f) (t : EventTracker) :
    (with_aura_sources f t).boss_encounter_name = t.boss_encounter_name := rfl
@[simp] theorem ben_with_active_aura_stacks (f) (t : EventTracker) :
    (with_active_aura_stacks f t).boss_encounter_name = t.boss_encounter_name := rfl
@[simp] theorem ben_with_raw_aura_events (f) (t : EventTracker) :
    (with_raw_aura_events f t).boss_encounter_name = t.boss_encounter_name := rfl
@[simp] theorem ben_with_death_events (f) (t : EventTracker) :
    (with_death_events f t).boss_encounter_name = t.boss_encounter_name := rfl
@[simp] theorem ben_with_player_death_counts (f) (t : EventTracker) :
    (with_player_death_counts f t).boss_encounter_name = t.boss_encounter_name := rfl
@[simp] theorem ben_with_kill_counts (f) (t : EventTracker) :
    (with_kill_counts f t).boss_encounter_name = t.boss_encounter_name := rfl
@[simp] theorem ben_with_boss_watermark (m : Nat) (p : ℚ) (t : EventTracker) :
    (with_boss_watermark m p t).boss_encounter_name = t.boss_encounter_name := rfl
@[simp] theorem ben_push_recap_event (t : EventTracker) (g : String) (e : RecapEvent) :
    (t.push_recap_event g e).boss_encounter_name = t.boss_encounter_name := rfl

@[simp] theorem bmh_with_player_names (f) (t : EventTracker) :
    (with_player_names f t).boss_max_hp_seen = t.boss_max_hp_seen := rfl
@[simp] theorem bmh_with_damage_by_player (f) (t : EventTracker) :
    (with_damage_by_player f t).boss_max_hp_seen = t.boss_max_hp_seen := rfl
@[simp] theorem bmh_with_healing_by_player (f) (t : EventTracker) :
    (with_healing_by_player f t).boss_max_hp_seen = t.boss_max_hp_seen := rfl
@[simp] theorem bmh_with_damage_taken (f) (t : EventTracker) :
    (with_damage_taken f t).boss_max_hp_seen = t.boss_max_hp_seen := rfl
@[simp] theorem bmh_with_damage_targets (f) (t : EventTracker) :
    (with_damage_targets f t).boss_max_hp_seen = t.boss_max_hp_seen := rfl
@[simp] theorem bmh_with_healing_targets (f) (t : EventTracker) :
    (with_healing_targets f t).boss_max_hp_seen = t.boss_max_hp_seen := rfl
@[simp] theorem bmh_with_time_bucketed (f) (t : EventTracker) :
    (with_time_bucketed f t).boss_max_hp_seen = t.boss_max_hp_seen := rfl
@[simp] theorem bmh_with_creature_types (f) (t : EventTracker) :
    (with_creature_types f t).boss_max_hp_seen = t.boss_max_hp_seen := rfl
@[simp] theorem bmh_with_last_creature_hp (f) (t : EventTracker) :
    (with_last_creature_hp f t).boss_max_hp_seen = t.boss_max_hp_seen := rfl
@[simp] theorem bmh_with_boss_hp_timeline (f) (t : EventTracker) :
    (with_boss_hp_timeline f t).boss_max_hp_seen = t.boss_max_hp_seen := rfl
@[simp] theorem bmh_with_phase_damage_targets (f) (t : EventTracker) :
    (with_phase_damage_targets f t).boss_max_hp_seen = t.boss_max_hp_seen := rfl
@[simp] theorem bmh_with_phase_creature_types (f) (t : EventTracker) :
    (with_phase_creature_types f t).boss_max_hp_seen = t.boss_max_hp_seen := rfl
@[simp] theorem bmh_with_last_damage_to (f) (t : EventTracker) :
    (with_last_damage_to f t).boss_max_hp_seen = t.boss_max_hp_seen := rfl
@[simp] theorem bmh_with_aura_spell_names (f) (t : EventTracker) :
    (with_aura_spell_names f t).boss_max_hp_seen = t.boss_max_hp_seen := rfl
@[simp] theorem bmh_with_aura_sources (f) (t : EventTracker) :
    (with_aura_sources f t).boss_max_hp_seen = t.boss_max_hp_seen := rfl
@[simp] theorem bmh_with_active_aura_stacks (f) (t : EventTracker) :
    (with_active_aura_stacks f t).boss_max_hp_seen = t.boss_max_hp_seen := rfl
@[simp] theorem bmh_with_raw_aura_events (f) (t : EventTracker) :
    (with_raw_aura_events f t).boss_max_hp_seen = t.boss_max_hp_seen := rfl
@[simp] theorem bmh_with_death_events (f) (t : EventTracker) :
    (with_death_events f t).boss_max_hp_seen = t.boss_max_hp_seen := rfl
@[simp] theorem bmh_with_player_death_counts (f) (t : EventTracker) :
    (with_player_death_counts f t).boss_max_hp_seen = t.boss_max_hp_seen := rfl
@[simp] theorem bmh_with_kill_counts (f) (t : EventTracker) :
    (with_kill_counts f t).boss_max_hp_seen = t.boss_max_hp_seen := rfl
@[simp] theorem bmh_with_boss_watermark (m : Nat) (p : ℚ) (t : EventTracker) :
    (with_boss_watermark m p t).boss_max_hp_seen = m := rfl
@[simp] theorem bmh_push_recap_event (t : EventTracker) (g : String) (e : RecapEvent) :
    (t.push_recap_event g e).boss_max_hp_seen = t.boss_max_hp_seen := rfl

@[simp] theorem cbp_with_player_names (f) (t : EventTracker) :
    (with_player_names f t).current_boss_hp_pct = t.current_boss_hp_pct := rfl
@[simp] theorem cbp_with_damage_by_player (f) (t : EventTracker) :
    (with_damage_by_player f t).current_boss_hp_pct = t.current_boss_hp_pct := rfl
@[simp] theorem cbp_with_healing_by_player (f) (t : EventTracker) :
    (with_healing_by_player f t).current_boss_hp_pct = t.current_boss_hp_pct := rfl
@[simp] theorem cbp_with_damage_taken (f) (t : EventTracker) :
    (with_damage_taken f t).current_boss_hp_pct = t.current_boss_hp_pct := rfl
@[simp] theorem cbp_with_damage_targets (f) (t : EventTracker) :
    (with_damage_targets f t).current_boss_hp_pct = t.current_boss_hp_pct := rfl
@[simp] theorem cbp_with_healing_targets (f) (t : EventTracker) :
    (with_healing_targets f t).current_boss_hp_pct = t.current_boss_hp_pct := rfl
@[simp] theorem cbp_with_time_bucketed (f) (t : EventTracker) :
    (with_time_bucketed f t).current_boss_hp_pct = t.current_boss_hp_pct := rfl
@[simp] theorem cbp_with_creature_types (f) (t : EventTracker) :
    (with_creature_types f t).current_boss_hp_pct = t.current_boss_hp_pct := rfl
@[simp] theorem cbp_with_last_creature_hp (f) (t : EventTracker) :
    (with_last_creature_hp f t).current_boss_hp_pct = t.current_boss_hp_pct := rfl
@[simp] theorem cbp_with_boss_hp_timeline (f) (t : EventTracker) :
    (with_boss_hp_timeline f t).current_boss_hp_pct = t.current_boss_hp_pct := rfl
@[simp] theorem cbp_with_phase_damage_targets (f) (t : EventTracker) :
    (with_phase_damage_targets f t).current_boss_hp_pct = t.current_boss_hp_pct := rfl
@[simp] theorem cbp_with_phase_creature_types (f) (t : EventTracker) :
    (with_phase_creature_types f t).current_boss_hp_pct = t.current_boss_hp_pct := rfl
@[simp] theorem cbp_with_last_damage_to (f) (t : EventTracker) :
    (with_last_damage_to f t).current_boss_hp_pct = t.current_boss_hp_pct := rfl
@[simp] theorem cbp_with_aura_spell_names (f) (t : EventTracker) :
    (with_aura_spell_names f t).current_boss_hp_pct = t.current_boss_hp_pct := rfl
@[simp] theorem cbp_with_aura_sources (f) (t : EventTracker) :
    (with_aura_sources f t).current_boss_hp_pct = t.current_boss_hp_pct := rfl
@[simp] theorem cbp_with_active_aura_stacks (f) (t : EventTracker) :
    (with_active_aura_stacks f t).current_boss_hp_pct = t.current_boss_hp_pct := rfl
@[simp] theorem cbp_with_raw_aura_events (f) (t : EventTracker) :
    (with_raw_aura_events f t).current_boss_hp_pct = t.current_boss_hp_pct := rfl
@[simp] theorem cbp_with_death_events (f) (t : EventTracker) :
    (with_death_events f t).current_boss_hp_pct = t.current_boss_hp_pct := rfl
@[simp] theorem cbp_with_player_death_counts (f) (t : EventTracker) :
    (with_player_death_counts f t).current_boss_hp_pct = t.current_boss_hp_pct := rfl
@[simp] theorem cbp_with_kill_counts (f) (t : EventTracker) :
    (with_kill_counts f t).current_boss_hp_pct = t.current_boss_hp_pct := rfl
@[simp] theorem cbp_with_boss_watermark (m : Nat) (p : ℚ) (t : EventTracker) :
    (with_boss_watermark m p t).current_boss_hp_pct = p := rfl
@[simp] theorem cbp_push_recap_event (t : EventTracker) (g : String) (e : RecapEvent) :
    (t.push_recap_event g e).current_boss_hp_pct = t.current_boss_hp_pct := rfl

@[simp] theorem cph_with_player_names (f) (t : EventTracker) :
    (with_player_names f t).current_phase = t.current_phase := rfl
@[simp] theorem cph_with_damage_by_player (f) (t : EventTracker) :
    (with_damage_by_player f t).current_phase = t.current_phase := rfl
@[simp] theorem cph_with_healing_by_player (f) (t : EventTracker) :
    (with_healing_by_player f t).current_phase = t.current_phase := rfl
@[simp] theorem cph_with_damage_taken (f) (t : EventTracker) :
    (with_damage_taken f t).current_phase = t.current_phase := rfl
@[simp] theorem cph_with_damage_targets (f) (t : EventTracker) :
    (with_damage_targets f t).current_phase = t.current_phase := rfl
@[simp] theorem cph_with_healing_targets (f) (t : EventTracker) :
    (with_healing_targets f t).current_phase = t.current_phase := rfl
@[simp] theorem cph_with_time_bucketed (f) (t : EventTracker) :
    (with_time_bucketed f t).current_phase = t.current_phase := rfl
@[simp] theorem cph_with_creature_types (f) (t : EventTracker) :
    (with_creature_types f t).current_phase = t.current_phase := rfl
@[simp] theorem cph_with_last_creature_hp (f) (t : EventTracker) :
    (with_last_creature_hp f t).current_phase = t.current_phase := rfl
@[simp] theorem cph_with_boss_hp_timeline (f) (t : EventTracker) :
    (with_boss_hp_timeline f t).current_phase = t.current_phase := rfl
@[simp] theorem cph_with_phase_damage_targets (f) (t : EventTracker) :
    (with_phase_damage_targets f t).current_phase = t.current_phase := rfl
@[simp] theorem cph_with_phase_creature_types (f) (t : EventTracker) :
    (with_phase_creature_types f t).current_phase = t.current_phase := rfl
@[simp] theorem cph_with_last_damage_to (f) (t : EventTracker) :
    (with_last_damage_to f t).current_phase = t.current_phase := rfl
@[simp] theorem cph_with_aura_spell_names (f) (t : EventTracker) :
    (with_aura_spell_names f t).current_phase = t.current_phase := rfl
@[simp] theorem cph_with_aura_sources (f) (t : EventTracker) :
    (with_aura_sources f t).current_phase = t.current_phase := rfl
@[simp] theorem cph_with_active_aura_stacks (f) (t : EventTracker) :
    (with_active_aura_stacks f t).current_phase = t.current_phase := rfl
@[simp] theorem cph_with_raw_aura_events (f) (t : EventTracker) :
    (with_raw_aura_events f t).current_phase = t.current_phase := rfl
@[simp] theorem cph_with_death_events (f) (t : EventTracker) :
    (with_death_events f t).current_phase = t.current_phase := rfl
@[simp] theorem cph_with_player_death_counts (f) (t : EventTracker) :
    (with_player_death_counts f t).current_phase = t.current_phase := rfl
@[simp] theorem cph_with_kill_counts (f) (t : EventTracker) :
    (with_kill_counts f t).current_phase = t.current_phase := rfl
@[simp] theorem cph_with_boss_watermark (m : Nat) (p : ℚ) (t : EventTracker) :
    (with_boss_watermark m p t).current_phase = t.current_phase := rfl
@[simp] theorem cph_push_recap_event (t : EventTracker) (g : String) (e : RecapEvent) :
    (t.push_recap_event g e).current_phase = t.current_phase := rfl

/-- One raw combat event as the log driver hands it to `process_combat_event`. -/
structure RawEvent where
  etype : String
  fields : List String
  ts : String
  secs : ℚ
deriving DecidableEq, Repr

/-- Feed a list of combat events through `process_combat_event` with a fixed
scope start, exactly as the driver's per-scope dispatch loop does. -/
def processEvents (start_secs : ℚ) (es : List RawEvent) (t : EventTracker) : EventTracker :=
  es.foldl (fun t e => process_combat_event e.etype e.fields e.ts e.secs start_secs t) t

/-! ## Summary builders (`build_buff_uptimes`, `build_enemy_breakdowns`) -/

/-- Stable insertion into a descending-sorted list. -/
def insertDesc {α β : Type} [LinearOrder β] (key : α → β) (x : α) : List α → List α
  | [] => [x]
  | y :: ys => if key x < key y then y :: insertDesc key x ys else x :: y :: ys

/-- Rust `Vec::sort_by` with a descending comparator (stable). -/
def sortByDesc {α β : Type} [LinearOrder β] (key : α → β) : List α → List α
  | [] => []
  | x :: xs => insertDesc key x (sortByDesc key xs)

/-- Loop state of the per-spell scan in `build_buff_uptimes`, mirroring the
mutable locals of the Rust loop. -/
structure AuraScan where
  timeline : List BuffEvent
  total_uptime : ℚ
  weighted_stacks : ℚ
  max_stacks : Nat
  is_active : Bool
  active_since : ℚ
  current_stacks : Nat
deriving DecidableEq, Repr

/-- Initial scan state of `build_buff_uptimes`. -/
def AuraScan.init : AuraScan :=
  { timeline := [], total_uptime := 0, weighted_stacks := 0, max_stacks := 0,
    is_active := false, active_since := 0, current_stacks := 0 }

/-- One step of the per-spell scan of `build_buff_uptimes`: push the timeline
entry, then update the uptime accounting by event kind. -/
def auraStep (st : AuraScan) (ev : ℚ × String × Nat) : AuraScan :=
  let st := { st with timeline := st.timeline ++ [⟨ev.1, ev.2.1, ev.2.2⟩] }
  if ev.2.1 = "apply" then
    let st :=
      if st.is_active then
        { st with
            total_uptime := st.total_uptime + (ev.1 - st.active_since),
            weighted_stacks :=
              st.weighted_stacks + (st.current_stacks : ℚ) * (ev.1 - st.active_since) }
      else st
    { st with is_active := true, active_since := ev.1, current_stacks := ev.2.2,
              max_stacks := if st.max_stacks < ev.2.2 then ev.2.2 else st.max_stacks }
  else if ev.2.1 = "remove" then
    let st :=
      if st.is_active then
        { st with
            total_uptime := st.total_uptime + (ev.1 - st.active_since),
            weighted_stacks :=
              st.weighted_stacks + (st.current_stacks : ℚ) * (ev.1 - st.active_since) }
      else st
    { st with is_active := false, current_stacks := 0 }
  else if ev.2.1 = "stack" then
    let st :=
      if st.is_active then
        { st with
            total_uptime := st.total_uptime + (ev.1 - st.active_since),
            weighted_stacks :=
              st.weighted_stacks + (st.current_stacks : ℚ) * (ev.1 - st.active_since),
            active_since := ev.1 }
      else st
    { st with current_stacks := ev.2.2,
              max_stacks := if st.max_stacks < ev.2.2 then ev.2.2 else st.max_stacks }
  else st

/-- Closing step of `build_buff_uptimes`: a buff still active at scope end has
its open interval closed at `duration`. -/
def auraClose (duration : ℚ) (st : AuraScan) : AuraScan :=
  if st.is_active ∧ st.active_since < duration then
    { st with
        total_uptime := st.total_uptime + (duration - st.active_since),
        weighted_stacks :=
          st.weighted_stacks + (st.current_stacks : ℚ) * (duration - st.active_since) }
  else st

/-- Per-spell body of `build_buff_uptimes`: scan the raw events, close a
still-active interval at scope end, drop spells with under 0.01 s of uptime,
and cap the percentage at 100. -/
def buildOneUptime (t : EventTracker) (guid : String) (spell_id : Nat)
    (events : List (ℚ × String × Nat)) (duration : ℚ) : Option BuffUptime :=
  let spell_name := (alookup spell_id t.aura_spell_names).getD ("Spell " ++ toString spell_id)
  let st := auraClose duration (events.foldl auraStep AuraScan.init)
  if st.total_uptime < 1/100 then none
  else
    let uptime_pct := if 0 < duration then min (st.total_uptime / duration * 100) 100 else 0
    let avg_stacks := if 0 < st.total_uptime then st.weighted_stacks / st.total_uptime else 0
    some { spell_id, spell_name,
           source_name := (alookup (guid, spell_id) t.aura_sources).getD "",
           uptime_secs := st.total_uptime, uptime_pct, avg_stacks,
           max_stacks := st.max_stacks, wh_url := wowhead_url spell_id,
           timeline := st.timeline }

/-- Accumulation step of the Rust per-spell loop: push a built `BuffUptime`,
skip a `continue`d spell. -/
def appendSomeStep {π ρ : Type} (f : π → Option ρ) (acc : List ρ) (x : π) : List ρ :=
  match f x with
  | some u => acc ++ [u]
  | none => acc

/-- `EventTracker::build_buff_uptimes`: per player, build one `BuffUptime` per
aura spell and sort them by uptime percentage, descending. -/
def build_buff_uptimes (t : EventTracker) (duration : ℚ) : List (String × List BuffUptime) :=
  t.raw_aura_events.foldl (fun result pr =>
    let player_uptimes :=
      pr.2.foldl (appendSomeStep (fun sp => buildOneUptime t pr.1 sp.1 sp.2 duration)) []
    ainsert pr.1 (sortByDesc (fun b => b.uptime_pct) player_uptimes) result) []

/-- Substring test, Rust `str::contains(&str)`. -/
def strContains (hay needle : String) : Bool :=
  (List.range (hay.toList.length + 1)).any fun i => needle.toList.isPrefixOf (hay.toList.drop i)

/-- Inversion step of `build_enemy_breakdowns`: turn
`player_guid → spell_id → target_name → amount` into
`target_name → player_guid → total amount`. -/
def invert_damage_targets (dt : List (String × List (Nat × List (String × Nat)))) :
    List (String × List (String × Nat)) :=
  dt.foldl (fun tm pg =>
    pg.2.foldl (fun tm sp =>
      sp.2.foldl (fun tm tgt =>
        aupdate tgt.1 [] (aupdate pg.1 0 (· + tgt.2)) tm) tm) tm) []

/-- `EventTracker::build_enemy_breakdowns`: invert the damage-targets map, then
enrich each target with kill count and a Pet/Boss/Trash classification, and sort
by total damage, descending. -/
def build_enemy_breakdowns (t : EventTracker) (boss_names : List String) :
    List EnemyBreakdown :=
  let target_map := invert_damage_targets t.damage_targets
  let boss_names_lower := boss_names.map strToLower
  let breakdowns := target_map.map fun pr =>
    let total_damage := pr.2.foldl (fun a q => a + q.2) 0
    let players := sortByDesc (fun p => p.damage) (pr.2.map fun q =>
      { player_name := (alookup q.1 t.player_names).getD q.1,
        class_name := ((spec_info ((alookup q.1 t.player_specs).getD 0)).map
          (fun c => c.1)).getD "",
        damage := q.2 })
    ({ target_name := pr.1, total_damage, kill_count := 0, mob_type := "", players } :
      EnemyBreakdown)
  let enriched := breakdowns.map fun e =>
    let creature_guid_type := (alookup e.target_name t.creature_types).getD "Unknown"
    let name_lower := strToLower e.target_name
    let mob_type :=
      if creature_guid_type = "Pet" then "Pet"
      else if boss_names_lower.any
          (fun bn => strContains name_lower bn || strContains bn name_lower) then "Boss"
      else "Trash"
    { e with kill_count := (alookup e.target_name t.kill_counts).getD 0, mob_type }
  sortByDesc (fun e => e.total_damage) enriched

/-- The `total_healing` accumulation of `build_player_summaries`: the
`healing_done` credited to a player is the sum of the per-spell totals in
`healing_by_player`. -/
def build_total_healing (t : EventTracker) (guid : String) : Nat :=
  ((alookup guid t.healing_by_player).getD []).foldl (fun acc sp => acc + sp.2.2.2.1) 0

/-! ## Summary-cache handler (`log_summary` of `api.rs`) -/

/-- Response of the modelled `log_summary` handler: an OK response carries the
`X-Cache-Status` header value, the `X-Parse-Time` value and the summary body;
an error response carries the HTTP status and message. -/
inductive CacheResponse (α : Type) where
  | ok (cache_status : String) (parse_time : ℚ) (body : α)
  | err (status : Nat) (msg : String)
deriving DecidableEq, Repr

/-- Result of the modelled `log_summary` handler: the response, the cache map
after the request, and whether a parse task was spawned. -/
structure LogSummaryResult (α : Type) where
  response : CacheResponse α
  cache : List (String × Nat × α)
  ran_parse : Bool
deriving DecidableEq, Repr

/-- `log_summary` of `api.rs` from the size lookup on (filename validation and
path resolution already done): on a cached entry whose recorded size equals the
current file size answer `HIT` with parse time `0` from the cache without
parsing; otherwise run the parse — an error answers HTTP 500 and leaves the
cache untouched, a success is stored under the observed `current_size` and
answered as `PARSED`. -/
def log_summary {α : Type} (cache : List (String × Nat × α)) (filename : String)
    (current_size : Nat) (parse_result : Except String α) (elapsed : ℚ) :
    LogSummaryResult α :=
  let hit := match alookup filename cache with
    | some (cached_size, cached_summary) =>
      if cached_size = current_size then some cached_summary else none
    | none => none
  match hit with
  | some cached_summary =>
    { response := .ok "HIT" 0 cached_summary, cache := cache, ran_parse := false }
  | none =>
    match parse_result with
    | .error e => { response := .err 500 e, cache := cache, ran_parse := true }
    | .ok summary =>
      { response := .ok "PARSED" elapsed summary,
        cache := ainsert filename (current_size, summary) cache, ran_parse := true }

/-- Cache-miss condition of `log_summary`: no entry for the filename records
the currently observed size. -/
def cacheMiss {α : Type} (cache : List (String × Nat × α)) (filename : String)
    (current_size : Nat) : Prop :=
  ∀ sz s, alookup filename cache = some (sz, s) → sz ≠ current_size

/-! ## Helper lemmas -/

/-- Membership after `ainsert`: the new pair or an old pair. -/
theorem mem_ainsert {κ ν : Type} [DecidableEq κ] {p : κ × ν} {k : κ} {v : ν} :
    ∀ {m : List (κ × ν)}, p ∈ ainsert k v m → p = (k, v) ∨ p ∈ m := by
  intro m
  induction m with
  | nil => intro h; simpa [ainsert] using h
  | cons q rest ih =>
    intro h
    rw [ainsert] at h
    by_cases hk : q.1 = k
    · rw [if_pos hk] at h
      rcases List.mem_cons.mp h with h | h
      · exact Or.inl (by rw [h, hk])
      · exact Or.inr (List.mem_cons_of_mem _ h)
    · rw [if_neg hk] at h
      rcases List.mem_cons.mp h with h | h
      · exact Or.inr (h ▸ List.mem_cons_self _ _)
      · rcases ih h with h | h
        · exact Or.inl h
        · exact Or.inr (List.mem_cons_of_mem _ h)

/-- Value-predicate preservation for `aupdate`. -/
theorem aupdate_forall {κ ν : Type} [DecidableEq κ] (Q : ν → Prop) {k : κ} {d : ν} {f : ν → ν} :
    ∀ {m : List (κ × ν)}, (∀ p ∈ m, Q p.2) → Q (f d) → (∀ v, Q v → Q (f v)) →
      ∀ p ∈ aupdate k d f m, Q p.2 := by
  intro m
  induction m with
  | nil => intro _ hfd _ p hp; rw [aupdate] at hp; simp at hp; simp [hp, hfd]
  | cons q rest ih =>
    intro hm hfd hf p hp
    rw [aupdate] at hp
    by_cases hk : q.1 = k
    · rw [if_pos hk] at hp
      rcases List.mem_cons.mp hp with h | h
      · rw [h]; exact hf _ (hm q (List.mem_cons_self _ _))
      · exact hm p (List.mem_cons_of_mem _ h)
    · rw [if_neg hk] at hp
      rcases List.mem_cons.mp hp with h | h
      · rw [h]; exact hm q (List.mem_cons_self _ _)
      · exact ih (fun r hr => hm r (List.mem_cons_of_mem _ hr)) hfd hf p h

/-- Key-predicate preservation for `aupdate`. -/
theorem aupdate_keys_forall {κ ν : Type} [DecidableEq κ] (P : κ → Prop) {k : κ} {d : ν}
    {f : ν → ν} : ∀ {m : List (κ × ν)}, (∀ p ∈ m, P p.1) → P k →
      ∀ p ∈ aupdate k d f m, P p.1 := by
  intro m
  induction m with
  | nil => intro _ hk p hp; rw [aupdate] at hp; simp at hp; simp [hp, hk]
  | cons q rest ih =>
    intro hm hk p hp
    rw [aupdate] at hp
    by_cases hq : q.1 = k
    · rw [if_pos hq] at hp
      rcases List.mem_cons.mp hp with h | h
      · rw [h]; exact hm q (List.mem_cons_self _ _)
      · exact hm p (List.mem_cons_of_mem _ h)
    · rw [if_neg hq] at hp
      rcases List.mem_cons.mp hp with h | h
      · rw [h]; exact hm q (List.mem_cons_self _ _)
      · exact ih (fun r hr => hm r (List.mem_cons_of_mem _ hr)) hk p h

/-- Lookup after a self-keyed `aupdate`. -/
theorem alookup_aupdate_self {κ ν : Type} [DecidableEq κ] {k : κ} {d : ν} {f : ν → ν} :
    ∀ {m : List (κ × ν)}, alookup k (aupdate k d f m) = some (f ((alookup k m).getD d)) := by
  intro m
  induction m with
  | nil => simp [aupdate, alookup]
  | cons q rest ih =>
    rw [aupdate]
    by_cases hq : q.1 = k
    · rw [if_pos hq, alookup, if_pos hq, alookup, if_pos hq]
      rfl
    · rw [if_neg hq, alookup, if_neg hq, alookup, if_neg hq, ih]

/-- Lookup after an `aupdate` under a different key. -/
theorem alookup_aupdate_other {κ ν : Type} [DecidableEq κ] {k k2 : κ} {d : ν} {f : ν → ν}
    (hne : k2 ≠ k) :
    ∀ {m : List (κ × ν)}, alookup k (aupdate k2 d f m) = alookup k m := by
  intro m
  induction m with
  | nil => simp [aupdate, alookup, hne]
  | cons q rest ih =>
    rw [aupdate]
    by_cases hq : q.1 = k2
    · have hq2 : q.1 ≠ k := by rw [hq]; exact hne
      rw [if_pos hq]
      simp [alookup, hq2]
    · rw [if_neg hq]
      by_cases hqk : q.1 = k
      · rw [alookup, if_pos hqk, alookup, if_pos hqk]
      · rw [alookup, if_neg hqk, alookup, if_neg hqk, ih]

/-- An invariant carried through a left fold. -/
theorem foldl_preserve {α σ : Type} (Inv : σ → Prop) (step : σ → α → σ) :
    ∀ {l : List α} {s : σ}, Inv s → (∀ s a, a ∈ l → Inv s → Inv (step s a)) →
      Inv (l.foldl step s) := by
  intro l
  induction l with
  | nil => intro s hs _; exact hs
  | cons a rest ih =>
    intro s hs hstep
    exact ih (hstep s a (List.mem_cons_self _ _) hs)
      (fun s2 b hb => hstep s2 b (List.mem_cons_of_mem _ hb))

/-- Membership through `insertDesc`. -/
theorem mem_insertDesc {α β : Type} [LinearOrder β] {key : α → β} {x a : α} :
    ∀ {l : List α}, a ∈ insertDesc key x l ↔ a = x ∨ a ∈ l := by
  intro l
  induction l with
  | nil => simp [insertDesc]
  | cons y ys ih =>
    rw [insertDesc]
    by_cases h : key x < key y
    · rw [if_pos h]
      simp only [List.mem_cons, ih]
      tauto
    · rw [if_neg h]
      simp [List.mem_cons]

/-- Membership is preserved by `sortByDesc`. -/
theorem mem_sortByDesc {α β : Type} [LinearOrder β] {key : α → β} {a : α} :
    ∀ {l : List α}, a ∈ sortByDesc key l ↔ a ∈ l := by
  intro l
  induction l with
  | nil => simp [sortByDesc]
  | cons x xs ih =>
    rw [sortByDesc, mem_insertDesc]
    simp [ih]

/-! ## C8 — tokenizer round-trip on the synthetic payload -/

/-- C8 counterexample: tokenizing the payload `EVENT,"a,b",(1,2),3,"c"` yields
5 fields (the event type plus 4), not 4 as claimed. -/
theorem parse_csv_fields_count_is_five :
    (parse_csv_fields "EVENT,\"a,b\",(1,2),3,\"c\"").length ≠ 4 ∧
    (parse_csv_fields "EVENT,\"a,b\",(1,2),3,\"c\"").length = 5 := by
  constructor <;> decide

/-- Rust `str::ends_with`, via character lists. -/
def strEndsWith (s suf : String) : Bool := suf.toList.isSuffixOf s.toList

/-- C8 amended: tokenizing the payload `EVENT,"a,b",(1,2),3,"c"` yields the
event type followed by 4 fields, and every field that begins with a double
quote retains its surrounding quotes. -/
theorem parse_csv_fields_roundtrip :
    parse_csv_fields "EVENT,\"a,b\",(1,2),3,\"c\"" =
      ["EVENT", "\"a,b\"", "(1,2)", "3", "\"c\""] ∧
    ((parse_csv_fields "EVENT,\"a,b\",(1,2),3,\"c\"").drop 1).length = 4 ∧
    (parse_csv_fields "EVENT,\"a,b\",(1,2),3,\"c\"").all
      (fun f => !(strStartsWith f "\"") || strEndsWith f "\"") = true := by
  refine ⟨by decide, by decide, by decide⟩

/-! ## C3 — timestamp monotonicity -/

/-- C3 counterexample: across a calendar year boundary the decoded scalar
decreases — `01/01/2025 00:00:00.0000` follows `12/31/2024 23:59:59.0000` in a
log, yet decodes strictly below it, because `year·366 + month·31 + day` drops
by 5 days at New Year. -/
theorem parse_timestamp_year_boundary_decreases :
    parse_timestamp_to_secs "01/01/2025 00:00:00.0000" <
      parse_timestamp_to_secs "12/31/2024 23:59:59.0000" := by
  with_unfolding_all decide

/-- C3 amended: the decoded scalar is monotone for calendar-ordered timestamps
that share a calendar year (day in `1..31`, time of day within 24 h). -/
theorem ts_from_parts_monotone_same_year
    (y : ℚ) (mo1 d1 mo2 d2 : ℕ) (h1 mi1 s1 f1 h2 mi2 s2 f2 : ℚ)
    (hd1 : d1 ≤ 31) (hd2 : 1 ≤ d2)
    (ht1lo : 0 ≤ h1 * 3600 + mi1 * 60 + s1 + f1)
    (ht1hi : h1 * 3600 + mi1 * 60 + s1 + f1 ≤ 86400)
    (ht2lo : 0 ≤ h2 * 3600 + mi2 * 60 + s2 + f2)
    (hcal : mo1 < mo2 ∨ (mo1 = mo2 ∧ (d1 < d2 ∨ (d1 = d2 ∧
      h1 * 3600 + mi1 * 60 + s1 + f1 ≤ h2 * 3600 + mi2 * 60 + s2 + f2)))) :
    ts_from_parts (d1 : ℚ) y (mo1 : ℚ) h1 mi1 s1 f1 ≤
      ts_from_parts (d2 : ℚ) y (mo2 : ℚ) h2 mi2 s2 f2 := by
  unfold ts_from_parts
  rcases hcal with hmo | ⟨hmo, hd | ⟨hd, ht⟩⟩
  · have hn : (mo1 * 31 + d1 : ℕ) + 1 ≤ mo2 * 31 + d2 := by
      have : mo1 + 1 ≤ mo2 := hmo
      nlinarith
    have hnq : ((mo1 : ℚ) * 31 + d1) + 1 ≤ (mo2 : ℚ) * 31 + d2 := by exact_mod_cast hn
    nlinarith
  · subst hmo
    have hn : (mo1 * 31 + d1 : ℕ) + 1 ≤ mo1 * 31 + d2 := by omega
    have hnq : ((mo1 : ℚ) * 31 + d1) + 1 ≤ (mo1 : ℚ) * 31 + d2 := by exact_mod_cast hn
    nlinarith
  · subst hmo; subst hd
    nlinarith

/-- Witness for the amended C3 theorem at a concrete same-year pair. -/
theorem ts_from_parts_monotone_same_year_witness :
    ts_from_parts 10 2024 5 0 0 0 0 ≤ ts_from_parts 11 2024 5 12 30 15 0 := by
  have h := ts_from_parts_monotone_same_year 2024 5 10 5 11 0 0 0 0 12 30 15 0
    (by norm_num) (by norm_num) (by norm_num) (by norm_num) (by norm_num)
    (Or.inr ⟨rfl, Or.inl (by norm_num)⟩)
  simpa using h

/-! ## C5 — amount-offset search -/

/-- Concrete field vector separating the code from the claimed policy: the
nominal offset 31 holds `10^8` and offset 30 holds `5`. -/
def c5Fields : List String := List.replicate 30 "x" ++ ["5", "100000000"]

/-- C5 counterexample: at the nominal offset the code accepts `10^8` (any
non-negative parse, no upper bound), while the claimed policy would reject it
and return the `5` found at offset 30. -/
theorem find_damage_amount_nominal_unbounded :
    find_damage_amount c5Fields 31 = 100000000 ∧
    find_damage_amount_claimed c5Fields 31 = 5 ∧
    find_damage_amount c5Fields 31 ≠ find_damage_amount_claimed c5Fields 31 := by
  refine ⟨by decide, by decide, by decide⟩

/-- `amount_fallback` agrees with a first-match description over the offsets. -/
theorem amount_fallback_eq_findSome (fields : List String) :
    ∀ l : List (Option Nat),
      amount_fallback fields l = ((l.findSome? fun i =>
        match parseAt fields i with
        | some v => if 0 < v ∧ v < 100000000 then some v.toNat else none
        | none => none)).getD 0 := by
  intro l
  induction l with
  | nil => rfl
  | cons i rest ih =>
    rw [amount_fallback, List.findSome?]
    cases hp : parseAt fields i with
    | none => simpa using ih
    | some v =>
      by_cases hv : 0 < v ∧ v < 100000000
      · simp [hv]
      · simpa [hv] using ih

/-- C5 amended: the nominal offset accepts any non-negative parsed value (with
no `10^8` bound); only on a missing, malformed or negative nominal field does
the decoder fall back to the first offset among `[o−1, o+1, o−2, o+2]` whose
value satisfies `0 < v < 10^8`, returning `0` when none does. -/
theorem find_damage_amount_offset_policy (fields : List String) (o : Nat) :
    (∀ v : Int, parseAt fields (some o) = some v → 0 ≤ v →
      find_damage_amount fields o = v.toNat)
    ∧ ((parseAt fields (some o) = none ∨ ∃ v : Int, v < 0 ∧ parseAt fields (some o) = some v) →
      find_damage_amount fields o =
        (([wrapSub o 1, some (o + 1), wrapSub o 2, some (o + 2)].findSome? fun i =>
          match parseAt fields i with
          | some v => if 0 < v ∧ v < 100000000 then some v.toNat else none
          | none => none)).getD 0) := by
  constructor
  · intro v hv hnn
    simp only [find_damage_amount, hv, if_pos hnn]
  · intro h
    rcases h with h | ⟨v, hv, hsome⟩
    · simp only [find_damage_amount, h]
      rw [amount_fallback_eq_findSome]
    · simp only [find_damage_amount, hsome]
      rw [if_neg (by omega : ¬ (0 : Int) ≤ v), amount_fallback_eq_findSome]

/-- Witness for the amended C5 theorem at the concrete counterexample vector. -/
theorem find_damage_amount_offset_policy_witness :
    find_damage_amount c5Fields 31 = (100000000 : Int).toNat := by
  exact (find_damage_amount_offset_policy c5Fields 31).1 100000000 (by decide) (by decide)

/-! ## C2, C9 — summary-cache policy -/

/-- C2: a cached entry recorded at the current file size answers `HIT` with
parse time `0` and the cached body, without running a parse and without
touching the cache; otherwise a successful parse answers `PARSED` and is stored
under the observed current size. -/
theorem log_summary_cache_policy {α : Type} (cache : List (String × Nat × α))
    (filename : String) (current_size : Nat) (pr : Except String α) (elapsed : ℚ) :
    (∀ s, alookup filename cache = some (current_size, s) →
      log_summary cache filename current_size pr elapsed =
        { response := .ok "HIT" 0 s, cache := cache, ran_parse := false })
    ∧ (∀ s, cacheMiss cache filename current_size → pr = .ok s →
      log_summary cache filename current_size pr elapsed =
        { response := .ok "PARSED" elapsed s,
          cache := ainsert filename (current_size, s) cache, ran_parse := true }) := by
  constructor
  · intro s hs
    simp [log_summary, hs]
  · intro s hmiss hok
    subst hok
    cases hl : alookup filename cache with
    | none => simp [log_summary, hl]
    | some p =>
      have hne : p.1 ≠ current_size := hmiss p.1 p.2 (by rw [hl])
      simp [log_summary, hl, hne]

/-- Witness for C2 on a concrete cache: a HIT on a matching size and a PARSED
store on a size change. -/
theorem log_summary_cache_policy_witness :
    log_summary [("X.txt", 5, 42)] "X.txt" 5 (Except.ok 7) 1 =
      { response := .ok "HIT" 0 42, cache := [("X.txt", 5, 42)], ran_parse := false } ∧
    log_summary [("X.txt", 5, 42)] "X.txt" 6 (Except.ok 7) 1 =
      { response := .ok "PARSED" 1 7, cache := ainsert "X.txt" (6, 7) [("X.txt", 5, 42)],
        ran_parse := true } := by
  constructor
  · exact (log_summary_cache_policy [("X.txt", 5, 42)] "X.txt" 5 (Except.ok 7) 1).1 42
      (by decide)
  · exact (log_summary_cache_policy [("X.txt", 5, 42)] "X.txt" 6 (Except.ok 7) 1).2 7
      (by intro sz s h; simp [alookup] at h; omega) rfl

/-- C9: when the parse of an uncached (or size-changed) file fails, the handler
answers HTTP 500 with the parse error and the cache map is exactly the one
before the request — no entry is inserted or overwritten. -/
theorem log_summary_parse_error_atomicity {α : Type} (cache : List (String × Nat × α))
    (filename : String) (current_size : Nat) (msg : String) (elapsed : ℚ)
    (hmiss : cacheMiss cache filename current_size) :
    log_summary cache filename current_size (Except.error msg) elapsed =
      { response := .err 500 msg, cache := cache, ran_parse := true } := by
  cases hl : alookup filename cache with
  | none => simp [log_summary, hl]
  | some p =>
    have hne : p.1 ≠ current_size := hmiss p.1 p.2 (by rw [hl])
    simp [log_summary, hl, hne]

/-- Witness for C9 on a concrete cache and failing parse. -/
theorem log_summary_parse_error_atomicity_witness :
    log_summary [("X.txt", 5, (42 : Nat))] "X.txt" 6 (Except.error "boom") 2 =
      { response := .err 500 "boom", cache := [("X.txt", 5, 42)], ran_parse := true } := by
  exact log_summary_parse_error_atomicity [("X.txt", 5, 42)] "X.txt" 6 "boom" 2
    (by intro sz s h; simp [alookup] at h; omega)

/-! ## C10 — effective healing saturates -/

/-- Name registration does not touch the healing map. -/
theorem register_names_healing (fields : List String) (t : EventTracker) :
    (register_names fields t).healing_by_player = t.healing_by_player := by
  simp [register_names, apply_ite EventTracker.healing_by_player]

/-- Recap pushes do not touch the healing map. -/
theorem push_recap_event_healing (t : EventTracker) (g : String) (e : RecapEvent) :
    (t.push_recap_event g e).healing_by_player = t.healing_by_player := rfl

/-- The healing map after the `SPELL_HEAL` arm: updated under the source GUID by
the effective amount exactly when the source is a player and the effective
amount is positive. -/
theorem handle_heal_healing_by_player (fields : List String) (ts_str : String)
    (ts_secs ss : ℚ) (sg sn dg dn : String) (t : EventTracker) :
    (handle_heal fields ts_str ts_secs ss sg sn dg dn t).healing_by_player =
      if strStartsWith sg "Player-" ∧ 0 < find_heal_amount fields 31 then
        aupdate sg []
          (aupdate (((fields.get? 9).bind rustParseU64).getD 0)
            (((fields.get? 10).map unquote).getD "",
              ((fields.get? 11).bind parse_hex_or_dec).getD 0, 0, 0)
            (fun e => (e.1, e.2.1, e.2.2.1 + find_heal_amount fields 31, e.2.2.2 + 1)))
          t.healing_by_player
      else t.healing_by_player := by
  simp only [handle_heal]
  split_ifs <;> rfl

/-- A sum-style fold is the sum of the mapped list. -/
theorem foldl_add_eq_sum {α : Type} (w : α → Nat) :
    ∀ (l : List α) (a : Nat),
      l.foldl (fun acc x => acc + w x) a = a + (l.map w).sum := by
  intro l
  induction l with
  | nil => intro a; simp
  | cons x xs ih =>
    intro a
    rw [List.foldl_cons, ih (a + w x), List.map_cons, List.sum_cons]
    omega

/-- Adding an amount through the per-spell `aupdate` raises the spell-total sum
by exactly that amount. -/
theorem total_aupdate_add (sid : Nat) (nm : String) (sc amt : Nat) :
    ∀ l : List (Nat × (String × Nat × Nat × Nat)),
      (((aupdate sid (nm, sc, 0, 0) (fun e => (e.1, e.2.1, e.2.2.1 + amt, e.2.2.2 + 1)) l).map
        (fun sp => sp.2.2.2.1)).sum) =
      ((l.map (fun sp => sp.2.2.2.1)).sum) + amt := by
  intro l
  induction l with
  | nil => simp [aupdate]
  | cons q rest ih =>
    rw [aupdate]
    by_cases hq : q.1 = sid
    · rw [if_pos hq, List.map_cons, List.map_cons, List.sum_cons, List.sum_cons]
      dsimp only
      omega
    · rw [if_neg hq, List.map_cons, List.map_cons, List.sum_cons, List.sum_cons, ih]
      dsimp only
      omega

/-- `find_heal_amount` unfolded: raw amount minus the overhealing two fields on. -/
theorem find_heal_amount_eq (fields : List String) (o : Nat) :
    find_heal_amount fields o =
      find_damage_amount fields o - ((fields.get? (o + 2)).bind rustParseU64).getD 0 := rfl

/-- C10: a `SPELL_HEAL` event credits the source player's healing total with the
raw amount minus overhealing under saturating (truncated) subtraction — the
contribution is `0`, never negative, when overhealing reaches or exceeds the
raw amount. -/
theorem heal_effective_saturating (t : EventTracker) (fields : List String)
    (ts_str : String) (ts_secs ss : ℚ) (g : String)
    (hg : (fields.get? 1).getD "" = g) (hp : strStartsWith g "Player-" = true) :
    build_total_healing (process_combat_event "SPELL_HEAL" fields ts_str ts_secs ss t) g =
      build_total_healing t g + (find_damage_amount fields 31 -
        ((fields.get? 33).bind rustParseU64).getD 0)
    ∧ (find_damage_amount fields 31 ≤ ((fields.get? 33).bind rustParseU64).getD 0 →
      build_total_healing (process_combat_event "SPELL_HEAL" fields ts_str ts_secs ss t) g =
        build_total_healing t g) := by
  have hproc : process_combat_event "SPELL_HEAL" fields ts_str ts_secs ss t =
      handle_heal fields ts_str ts_secs ss ((fields.get? 1).getD "")
        (((fields.get? 2).map unquote).getD "") ((fields.get? 5).getD "")
        (((fields.get? 6).map unquote).getD "") (register_names fields t) := by
    simp [process_combat_event]
  have hov : find_heal_amount fields 31 =
      find_damage_amount fields 31 - ((fields.get? 33).bind rustParseU64).getD 0 :=
    find_heal_amount_eq fields 31
  have hmain : build_total_healing (process_combat_event "SPELL_HEAL" fields ts_str ts_secs ss t) g
      = build_total_healing t g + find_heal_amount fields 31 := by
    rw [hproc]
    unfold build_total_healing
    rw [handle_heal_healing_by_player, register_names_healing, hg]
    have hbt : ∀ l : List (Nat × (String × Nat × Nat × Nat)),
        List.foldl (fun acc sp => acc + sp.2.2.2.1) 0 l = (l.map (fun sp => sp.2.2.2.1)).sum :=
      fun l => by simpa using foldl_add_eq_sum (fun sp => sp.2.2.2.1) l 0
    by_cases hpos : 0 < find_heal_amount fields 31
    · rw [if_pos ⟨by rw [hp], hpos⟩, alookup_aupdate_self, Option.getD_some, hbt, hbt,
        total_aupdate_add]
    · rw [if_neg (fun hc => hpos hc.2)]
      omega
  refine ⟨by rw [hmain, hov], fun hle => ?_⟩
  rw [hmain, hov]
  omega

/-- Witness for C10 at a concrete heal event with overhealing exceeding the raw
amount (raw 2000, overheal 2500): the healing total is unchanged. -/
theorem heal_effective_saturating_witness :
    build_total_healing (process_combat_event "SPELL_HEAL"
      (["SPELL_HEAL", "Player-1-AAA", "\"Alice\"", "0x511", "0x0",
        "Player-2-BBB", "\"Bob\"", "0x512", "0x0", "200", "\"Mend\"", "0x8",
        "0", "0", "0", "0", "0", "0", "0", "0", "0", "0", "0", "0", "0", "0",
        "0", "0", "0", "0", "0", "2000", "2000", "2500"] : List String)
      "ts" 10 0 EventTracker.new) "Player-1-AAA" =
      build_total_healing EventTracker.new "Player-1-AAA" := by
  exact (heal_effective_saturating EventTracker.new
    (["SPELL_HEAL", "Player-1-AAA", "\"Alice\"", "0x511", "0x0",
      "Player-2-BBB", "\"Bob\"", "0x512", "0x0", "200", "\"Mend\"", "0x8",
      "0", "0", "0", "0", "0", "0", "0", "0", "0", "0", "0", "0", "0", "0",
      "0", "0", "0", "0", "0", "2000", "2000", "2500"] : List String)
    "ts" 10 0 "Player-1-AAA" (by decide) (by decide)).2 (by decide)

/-! ## C4 — death-recap window, filtering and order -/

/-- Pushing onto a recap buffer keeps it a sublist of the pushed sequence. -/
theorem pushRecapList_sublist {b l : List RecapEvent} (h : b.Sublist l) (e : RecapEvent) :
    (pushRecapList b e).Sublist (l ++ [e]) := by
  simp only [pushRecapList]
  split_ifs with hlen
  · exact (List.filter_sublist _).trans (h.append (List.Sublist.refl [e]))
  · exact h.append (List.Sublist.refl [e])

/-- A recap buffer built by `push_recap_event` pushes (with trimming) is a
sublist of the pushed sequence, in original order. -/
theorem foldl_pushRecap_sublist :
    ∀ (es : List RecapEvent) (b l : List RecapEvent), b.Sublist l →
      (es.foldl pushRecapList b).Sublist (l ++ es) := by
  intro es
  induction es with
  | nil => intro b l h; simpa using h
  | cons e rest ih =>
    intro b l h
    have h2 := ih (pushRecapList b e) (l ++ [e]) (pushRecapList_sublist h e)
    simpa using h2

/-- C4: every recap attached on death satisfies the window
`death_time − t ∈ [0, 15]`, contains no `buff_removed` event within 0.5 s of
death, and preserves the original event order (a sublist of the pushed
sequence) — also when the 200-entry trim of `push_recap_event` ran. -/
theorem take_recap_window_and_order (es : List RecapEvent) (dt : ℚ) :
    (∀ r ∈ takeRecapFilter (es.foldl pushRecapList []) dt,
      (0 ≤ dt - r.time_into_fight_secs ∧ dt - r.time_into_fight_secs ≤ 15) ∧
      ¬(r.event_type = "buff_removed" ∧ |dt - r.time_into_fight_secs| < 1/2))
    ∧ (takeRecapFilter (es.foldl pushRecapList []) dt).Sublist es := by
  constructor
  · intro r hr
    unfold takeRecapFilter at hr
    obtain ⟨_, hcond⟩ := List.mem_filter.mp hr
    simp only [Bool.and_eq_true, decide_eq_true_eq, Bool.not_eq_true',
      decide_eq_false_iff_not] at hcond
    obtain ⟨⟨h15, hle⟩, hnb⟩ := hcond
    exact ⟨⟨by linarith, h15⟩, hnb⟩
  · exact (List.filter_sublist _).trans
      (by simpa using foldl_pushRecap_sublist es [] [] (List.Sublist.refl []))

/-- Concrete recap event for the C4 witness. -/
def c4Event : RecapEvent :=
  { timestamp := "t", time_into_fight_secs := 5, event_type := "damage", amount := 100,
    spell_name := "Strike", spell_id := 1, source_name := "Mob", wh_url := "",
    current_hp := 50, max_hp := 100 }

/-- Witness for C4 at a concrete buffer and death time. -/
theorem take_recap_window_and_order_witness :
    ((0 ≤ (10 : ℚ) - c4Event.time_into_fight_secs ∧
        (10 : ℚ) - c4Event.time_into_fight_secs ≤ 15) ∧
      ¬(c4Event.event_type = "buff_removed" ∧
        |(10 : ℚ) - c4Event.time_into_fight_secs| < 1/2)) ∧
    (takeRecapFilter ([c4Event].foldl pushRecapList []) 10).Sublist [c4Event] := by
  refine ⟨(take_recap_window_and_order [c4Event] 10).1 c4Event ?_,
    (take_recap_window_and_order [c4Event] 10).2⟩
  with_unfolding_all decide

/-! ## C7 — uptime percentage bounds -/

/-- Membership through a fold of key-value inserts. -/
theorem mem_foldl_ainsert {κ ν π : Type} [DecidableEq κ] (key : π → κ) (val : π → ν) :
    ∀ (l : List π) (acc : List (κ × ν)) (p : κ × ν),
      p ∈ l.foldl (fun m x => ainsert (key x) (val x) m) acc →
      p ∈ acc ∨ ∃ x ∈ l, p = (key x, val x) := by
  intro l
  induction l with
  | nil => intro acc p h; exact Or.inl h
  | cons x xs ih =>
    intro acc p h
    rcases ih _ p h with h2 | ⟨y, hy, hp⟩
    · rcases mem_ainsert h2 with h3 | h3
      · exact Or.inr ⟨x, List.mem_cons_self _ _, h3⟩
      · exact Or.inl h3
    · exact Or.inr ⟨y, List.mem_cons_of_mem _ hy, hp⟩

/-- Membership through a fold that appends the some-results of a partial map. -/
theorem mem_foldl_appendSome {π ρ : Type} (f : π → Option ρ) :
    ∀ (l : List π) (acc : List ρ) (u : ρ),
      u ∈ l.foldl (appendSomeStep f) acc →
      u ∈ acc ∨ ∃ sp ∈ l, f sp = some u := by
  intro l
  induction l with
  | nil => intro acc u h; exact Or.inl h
  | cons x xs ih =>
    intro acc u h
    rcases ih _ u h with h2 | ⟨sp, hsp, hf⟩
    · rw [appendSomeStep] at h2
      cases hfx : f x with
      | none =>
        rw [hfx] at h2
        exact Or.inl h2
      | some v =>
        rw [hfx] at h2
        rcases List.mem_append.mp h2 with h3 | h3
        · exact Or.inl h3
        · simp at h3
          exact Or.inr ⟨x, List.mem_cons_self _ _, by rw [hfx, h3]⟩
    · exact Or.inr ⟨sp, List.mem_cons_of_mem _ hsp, hf⟩

/-- The capped-percentage form is always within `[0, 100]` once the 0.01 s
uptime guard has passed. -/
theorem pct_bound_core (st : AuraScan) (d : ℚ) (h : ¬ st.total_uptime < 1/100) :
    0 ≤ (if 0 < d then min (st.total_uptime / d * 100) 100 else 0) ∧
      (if 0 < d then min (st.total_uptime / d * 100) 100 else 0) ≤ 100 := by
  have h0 : (0 : ℚ) ≤ st.total_uptime := le_trans (by norm_num) (le_of_not_lt h)
  constructor
  · split_ifs with hd
    · refine le_min ?_ (by norm_num)
      positivity
    · exact le_refl 0
  · split_ifs with hd
    · exact min_le_right _ _
    · norm_num

/-- A materialised `BuffUptime` always carries a percentage in `[0, 100]`. -/
theorem buildOneUptime_pct_bounds {t : EventTracker} {g : String} {sid : Nat}
    {evs : List (ℚ × String × Nat)} {d : ℚ} {u : BuffUptime}
    (h : buildOneUptime t g sid evs d = some u) :
    0 ≤ u.uptime_pct ∧ u.uptime_pct ≤ 100 := by
  simp only [buildOneUptime] at h
  by_cases hlt : (auraClose d (evs.foldl auraStep AuraScan.init)).total_uptime < 1/100
  · rw [if_pos hlt] at h
    exact absurd h (by simp)
  · rw [if_neg hlt] at h
    rw [← Option.some.inj h]
    exact pct_bound_core (auraClose d (evs.foldl auraStep AuraScan.init)) d hlt

set_option maxHeartbeats 1000000 in
/-- C7: every `BuffUptime` materialised by `build_buff_uptimes`, for any tracker
state (double-applies included) and any scope duration, has
`0 ≤ uptime_pct ≤ 100`. -/
theorem buff_uptime_pct_in_unit_range (t : EventTracker) (d : ℚ) (g : String)
    (us : List BuffUptime) (h : (g, us) ∈ build_buff_uptimes t d) :
    ∀ b ∈ us, 0 ≤ b.uptime_pct ∧ b.uptime_pct ≤ 100 := by
  intro b hb
  simp only [build_buff_uptimes] at h
  rcases mem_foldl_ainsert (fun pr => pr.1)
      (fun pr => sortByDesc (fun b2 => b2.uptime_pct)
        (pr.2.foldl (appendSomeStep (fun sp => buildOneUptime t pr.1 sp.1 sp.2 d)) []))
      t.raw_aura_events [] (g, us) h with h2 | ⟨pr, _, heq⟩
  · simp at h2
  · have hus : us = sortByDesc (fun b2 => b2.uptime_pct)
        (pr.2.foldl (appendSomeStep (fun sp => buildOneUptime t pr.1 sp.1 sp.2 d)) []) :=
      congrArg Prod.snd heq
    rw [hus, mem_sortByDesc] at hb
    have hb2 : b ∈ pr.2.foldl (appendSomeStep (fun sp => buildOneUptime t pr.1 sp.1 sp.2 d)) [] := hb
    rcases mem_foldl_appendSome _ pr.2 [] b hb2 with
      h3 | ⟨sp, _, hsome⟩
    · simp at h3
    · exact buildOneUptime_pct_bounds hsome

/-- Tracker state of the C7 witness: one aura with a single apply at 0. -/
def c7Tracker : EventTracker :=
  { EventTracker.new with
    raw_aura_events := [("P", [(5, [(0, "apply", 1)])])]
    aura_spell_names := [(5, "B")]
    aura_sources := [(("P", 5), "S")] }

/-- The `BuffUptime` that `build_buff_uptimes c7Tracker 10` materialises. -/
def c7Uptime : BuffUptime :=
  { spell_id := 5, spell_name := "B", source_name := "S", uptime_secs := 10,
    uptime_pct := 100, avg_stacks := 1, max_stacks := 1,
    wh_url := "https://www.wowhead.com/spell=5", timeline := [⟨0, "apply", 1⟩] }

/-- Witness for C7 at a concrete tracker and duration. -/
theorem buff_uptime_pct_in_unit_range_witness :
    0 ≤ c7Uptime.uptime_pct ∧ c7Uptime.uptime_pct ≤ 100 :=
  buff_uptime_pct_in_unit_range c7Tracker 10 "P" [c7Uptime]
    (by with_unfolding_all decide) c7Uptime (List.mem_singleton.mpr rfl)

/-! ## C6 — zero stacks in aura timelines -/

/-- The raw-aura-event invariant: a recorded triple with stack value `0` is a
`remove` or a `stack` (from `SPELL_AURA_REMOVED_DOSE`), never an `apply`. -/
def auraTripleOk (r : ℚ × String × Nat) : Prop :=
  r.2.2 = 0 → r.2.1 = "remove" ∨ r.2.1 = "stack"

/-- Tracker-level raw-aura invariant. -/
def auraOk (t : EventTracker) : Prop :=
  ∀ pg ∈ t.raw_aura_events, ∀ sp ∈ pg.2, ∀ r ∈ sp.2, auraTripleOk r

/-- Name registration does not touch the raw aura events. -/
theorem register_names_raw (fields : List String) (t : EventTracker) :
    (register_names fields t).raw_aura_events = t.raw_aura_events := by
  simp [register_names, apply_ite EventTracker.raw_aura_events]

/-- Recap pushes do not touch the raw aura events. -/
theorem push_recap_event_raw (t : EventTracker) (g : String) (e : RecapEvent) :
    (t.push_recap_event g e).raw_aura_events = t.raw_aura_events := rfl

set_option maxHeartbeats 1600000 in
/-- The `SPELL_DAMAGE` arm does not touch the raw aura events. -/
theorem handle_spell_damage_raw (fields : List String) (ts : String) (tss ss : ℚ)
    (sg sn dg dn : String) (t : EventTracker) :
    (handle_spell_damage fields ts tss ss sg sn dg dn t).raw_aura_events =
      t.raw_aura_events := by
  simp [handle_spell_damage, apply_ite EventTracker.raw_aura_events]

/-- The `SWING_DAMAGE` arm does not touch the raw aura events. -/
theorem handle_swing_damage_raw (fields : List String) (ts : String) (tss ss : ℚ)
    (sg sn dg dn : String) (t : EventTracker) :
    (handle_swing_damage fields ts tss ss sg sn dg dn t).raw_aura_events =
      t.raw_aura_events := by
  simp [handle_swing_damage, apply_ite EventTracker.raw_aura_events]

/-- The `SPELL_HEAL` arm does not touch the raw aura events. -/
theorem handle_heal_raw (fields : List String) (ts : String) (tss ss : ℚ)
    (sg sn dg dn : String) (t : EventTracker) :
    (handle_heal fields ts tss ss sg sn dg dn t).raw_aura_events = t.raw_aura_events := by
  simp [handle_heal, apply_ite EventTracker.raw_aura_events]

/-- The `UNIT_DIED` arm does not touch the raw aura events. -/
theorem handle_unit_died_raw (ts : String) (tss ss : ℚ) (dg dn : String) (t : EventTracker) :
    (handle_unit_died ts tss ss dg dn t).raw_aura_events = t.raw_aura_events := by
  simp [handle_unit_died, apply_ite EventTracker.raw_aura_events]

/-- Pushing one well-formed triple into the nested raw-aura map preserves the
invariant. -/
theorem auraOk_push (dg : String) (sid : Nat) (tr : ℚ × String × Nat) (htr : auraTripleOk tr)
    {m : List (String × List (Nat × List (ℚ × String × Nat)))}
    (hm : ∀ pg ∈ m, ∀ sp ∈ pg.2, ∀ r ∈ sp.2, auraTripleOk r) :
    ∀ pg ∈ aupdate dg [] (aupdate sid [] (fun evs => evs ++ [tr])) m,
      ∀ sp ∈ pg.2, ∀ r ∈ sp.2, auraTripleOk r := by
  intro pg hpg
  refine aupdate_forall
    (fun sm : List (Nat × List (ℚ × String × Nat)) => ∀ sp ∈ sm, ∀ r ∈ sp.2, auraTripleOk r)
    hm ?_ ?_ pg hpg
  · intro sp hsp r hr
    simp only [aupdate, List.nil_append] at hsp
    simp at hsp
    rw [hsp] at hr
    simp at hr
    rw [hr]
    exact htr
  · intro v hv sp hsp
    refine aupdate_forall
      (fun evs : List (ℚ × String × Nat) => ∀ r ∈ evs, auraTripleOk r) hv ?_ ?_ sp hsp
    · intro r hr
      simp at hr
      rw [hr]
      exact htr
    · intro evs hevs r hr
      rcases List.mem_append.mp hr with h3 | h3
      · exact hevs r h3
      · simp at h3
        rw [h3]
        exact htr

/-- Raw-aura map after the `SPELL_AURA_APPLIED`/`REFRESH` arm. -/
theorem handle_aura_applied_raw (fields : List String) (ts : String) (tss ss : ℚ)
    (sn dg : String) (t : EventTracker) :
    (handle_aura_applied fields ts tss ss sn dg t).raw_aura_events =
      if strStartsWith dg "Player-" = true then
        if 0 < ((fields.get? 9).bind rustParseU64).getD 0 then
          aupdate dg []
            (aupdate (((fields.get? 9).bind rustParseU64).getD 0) []
              (fun evs => evs ++ [(tss - ss, "apply", 1)])) t.raw_aura_events
        else t.raw_aura_events
      else t.raw_aura_events := by
  simp only [handle_aura_applied]
  split_ifs <;> simp

/-- Raw-aura map after the `SPELL_AURA_REMOVED` arm. -/
theorem handle_aura_removed_raw (fields : List String) (ts : String) (tss ss : ℚ)
    (sn dg : String) (t : EventTracker) :
    (handle_aura_removed fields ts tss ss sn dg t).raw_aura_events =
      if strStartsWith dg "Player-" = true then
        if 0 < ((fields.get? 9).bind rustParseU64).getD 0 then
          aupdate dg []
            (aupdate (((fields.get? 9).bind rustParseU64).getD 0) []
              (fun evs => evs ++ [(tss - ss, "remove", 0)])) t.raw_aura_events
        else t.raw_aura_events
      else t.raw_aura_events := by
  simp only [handle_aura_removed]
  split_ifs <;> simp

/-- Raw-aura map after the `SPELL_AURA_APPLIED_DOSE` arm. -/
theorem handle_aura_applied_dose_raw (fields : List String) (tss ss : ℚ)
    (dg : String) (t : EventTracker) :
    (handle_aura_applied_dose fields tss ss dg t).raw_aura_events =
      if strStartsWith dg "Player-" = true then
        if 0 < ((fields.get? 9).bind rustParseU64).getD 0 ∧
            0 < ((fields.get? 15).bind rustParseU32).getD 0 then
          aupdate dg []
            (aupdate (((fields.get? 9).bind rustParseU64).getD 0) []
              (fun evs => evs ++
                [(tss - ss, "stack", ((fields.get? 15).bind rustParseU32).getD 0)]))
            t.raw_aura_events
        else t.raw_aura_events
      else t.raw_aura_events := by
  simp only [handle_aura_applied_dose]
  split_ifs <;> simp

/-- Raw-aura map after the `SPELL_AURA_REMOVED_DOSE` arm. -/
theorem handle_aura_removed_dose_raw (fields : List String) (tss ss : ℚ)
    (dg : String) (t : EventTracker) :
    (handle_aura_removed_dose fields tss ss dg t).raw_aura_events =
      if strStartsWith dg "Player-" = true then
        if 0 < ((fields.get? 9).bind rustParseU64).getD 0 then
          aupdate dg []
            (aupdate (((fields.get? 9).bind rustParseU64).getD 0) []
              (fun evs => evs ++
                [(tss - ss, "stack", ((fields.get? 15).bind rustParseU32).getD 0)]))
            t.raw_aura_events
        else t.raw_aura_events
      else t.raw_aura_events := by
  simp only [handle_aura_removed_dose]
  split_ifs <;> simp

/-- The `SPELL_AURA_APPLIED`/`REFRESH` arm preserves the invariant: its timeline
triple is `(apply, 1)`. -/
theorem handle_aura_applied_auraOk (fields : List String) (ts : String) (tss ss : ℚ)
    (sn dg : String) (t : EventTracker) (h : auraOk t) :
    auraOk (handle_aura_applied fields ts tss ss sn dg t) := by
  intro pg hpg
  rw [handle_aura_applied_raw] at hpg
  split_ifs at hpg with h1 h2
  · exact auraOk_push _ _ _ (by intro h0; simp at h0) h pg hpg
  · exact h pg hpg
  · exact h pg hpg

/-- The `SPELL_AURA_REMOVED` arm preserves the invariant: its triple is
`(remove, 0)`. -/
theorem handle_aura_removed_auraOk (fields : List String) (ts : String) (tss ss : ℚ)
    (sn dg : String) (t : EventTracker) (h : auraOk t) :
    auraOk (handle_aura_removed fields ts tss ss sn dg t) := by
  intro pg hpg
  rw [handle_aura_removed_raw] at hpg
  split_ifs at hpg with h1 h2
  · exact auraOk_push _ _ _ (by intro _; exact Or.inl rfl) h pg hpg
  · exact h pg hpg
  · exact h pg hpg

/-- The `SPELL_AURA_APPLIED_DOSE` arm preserves the invariant: its triple is a
`stack`. -/
theorem handle_aura_applied_dose_auraOk (fields : List String) (tss ss : ℚ)
    (dg : String) (t : EventTracker) (h : auraOk t) :
    auraOk (handle_aura_applied_dose fields tss ss dg t) := by
  intro pg hpg
  rw [handle_aura_applied_dose_raw] at hpg
  split_ifs at hpg with h1 h2
  · exact auraOk_push _ _ _ (by intro _; exact Or.inr rfl) h pg hpg
  · exact h pg hpg
  · exact h pg hpg

/-- The `SPELL_AURA_REMOVED_DOSE` arm preserves the invariant: its triple is a
`stack` (possibly with stack value `0`). -/
theorem handle_aura_removed_dose_auraOk (fields : List String) (tss ss : ℚ)
    (dg : String) (t : EventTracker) (h : auraOk t) :
    auraOk (handle_aura_removed_dose fields tss ss dg t) := by
  intro pg hpg
  rw [handle_aura_removed_dose_raw] at hpg
  split_ifs at hpg with h1 h2
  · exact auraOk_push _ _ _ (by intro _; exact Or.inr rfl) h pg hpg
  · exact h pg hpg
  · exact h pg hpg

/-- Every dispatched combat event preserves the raw-aura invariant. -/
theorem process_auraOk (et : String) (fields : List String) (ts : String) (tss ss : ℚ)
    (t : EventTracker) (h : auraOk t) :
    auraOk (process_combat_event et fields ts tss ss t) := by
  have hreg : auraOk (register_names fields t) := by
    intro pg hpg
    rw [register_names_raw] at hpg
    exact h pg hpg
  simp only [process_combat_event]
  split_ifs
  · intro pg hpg
    rw [handle_spell_damage_raw] at hpg
    exact hreg pg hpg
  · intro pg hpg
    rw [handle_swing_damage_raw] at hpg
    exact hreg pg hpg
  · intro pg hpg
    rw [handle_heal_raw] at hpg
    exact hreg pg hpg
  · exact handle_aura_applied_auraOk _ _ _ _ _ _ _ hreg
  · exact handle_aura_removed_auraOk _ _ _ _ _ _ _ hreg
  · exact handle_aura_applied_dose_auraOk _ _ _ _ _ hreg
  · exact handle_aura_removed_dose_auraOk _ _ _ _ _ hreg
  · intro pg hpg
    rw [handle_unit_died_raw] at hpg
    exact hreg pg hpg
  · exact hreg

/-- Any tracker reached from a fresh scope satisfies the raw-aura invariant. -/
theorem processEvents_auraOk (ss : ℚ) (es : List RawEvent) :
    auraOk (processEvents ss es EventTracker.new) := by
  have h0 : auraOk EventTracker.new := by
    intro pg hpg
    exact absurd hpg (by simp [EventTracker.new])
  unfold processEvents
  exact foldl_preserve auraOk _ h0 (fun t e _ ht => process_auraOk e.etype e.fields e.ts e.secs ss t ht)

/-- One aura-scan step appends exactly the event's timeline entry. -/
theorem auraStep_timeline (st : AuraScan) (r : ℚ × String × Nat) :
    (auraStep st r).timeline = st.timeline ++ [⟨r.1, r.2.1, r.2.2⟩] := by
  simp only [auraStep]
  split_ifs <;> rfl

/-- Every timeline entry of the aura scan comes from one of the raw events. -/
theorem foldl_auraStep_timeline_mem :
    ∀ (evs : List (ℚ × String × Nat)) (st : AuraScan) (b : BuffEvent),
      b ∈ (evs.foldl auraStep st).timeline →
      b ∈ st.timeline ∨ ∃ r ∈ evs, b = ⟨r.1, r.2.1, r.2.2⟩ := by
  intro evs
  induction evs with
  | nil => intro st b h; exact Or.inl h
  | cons r rest ih =>
    intro st b h
    rcases ih (auraStep st r) b h with h2 | ⟨r2, hr2, hb⟩
    · rw [auraStep_timeline] at h2
      rcases List.mem_append.mp h2 with h3 | h3
      · exact Or.inl h3
      · simp at h3
        exact Or.inr ⟨r, List.mem_cons_self _ _, h3⟩
    · exact Or.inr ⟨r2, List.mem_cons_of_mem _ hr2, hb⟩

/-- The closing step does not touch the timeline. -/
theorem auraClose_timeline (d : ℚ) (st : AuraScan) : (auraClose d st).timeline = st.timeline := by
  simp only [auraClose]
  split_ifs <;> rfl

/-- A materialised `BuffUptime`'s timeline entries all come from the spell's raw
aura events. -/
theorem buildOneUptime_timeline {t : EventTracker} {g : String} {sid : Nat}
    {evs : List (ℚ × String × Nat)} {d : ℚ} {u : BuffUptime}
    (h : buildOneUptime t g sid evs d = some u) {b : BuffEvent} (hb : b ∈ u.timeline) :
    ∃ r ∈ evs, b = ⟨r.1, r.2.1, r.2.2⟩ := by
  simp only [buildOneUptime] at h
  by_cases hlt : (auraClose d (evs.foldl auraStep AuraScan.init)).total_uptime < 1/100
  · rw [if_pos hlt] at h
    exact absurd h (by simp)
  · rw [if_neg hlt] at h
    have hu := Option.some.inj h
    rw [← hu] at hb
    dsimp only at hb
    rw [auraClose_timeline] at hb
    rcases foldl_auraStep_timeline_mem evs AuraScan.init b hb with h3 | h3
    · exact absurd h3 (by simp [AuraScan.init])
    · exact h3

set_option maxHeartbeats 1000000 in
/-- C6 amended: in every timeline of every `BuffUptime` built from any aura
event stream, an entry with stack value `0` is a `remove` or a `stack` entry
(the latter from `SPELL_AURA_REMOVED_DOSE` with dose `0`) — never an `apply`. -/
theorem timeline_zero_stacks_non_apply (ss : ℚ) (es : List RawEvent) (d : ℚ)
    (g : String) (us : List BuffUptime)
    (h : (g, us) ∈ build_buff_uptimes (processEvents ss es EventTracker.new) d)
    (b : BuffUptime) (hb : b ∈ us) (ev : BuffEvent) (hev : ev ∈ b.timeline)
    (h0 : ev.stacks = 0) : ev.event_type = "remove" ∨ ev.event_type = "stack" := by
  simp only [build_buff_uptimes] at h
  rcases mem_foldl_ainsert (fun pr => pr.1)
      (fun pr => sortByDesc (fun b2 => b2.uptime_pct)
        (pr.2.foldl (appendSomeStep
          (fun sp => buildOneUptime (processEvents ss es EventTracker.new) pr.1 sp.1 sp.2 d)) []))
      (processEvents ss es EventTracker.new).raw_aura_events [] (g, us) h with h2 | ⟨pr, hpr, heq⟩
  · simp at h2
  · have hus : us = sortByDesc (fun b2 => b2.uptime_pct)
        (pr.2.foldl (appendSomeStep
          (fun sp => buildOneUptime (processEvents ss es EventTracker.new) pr.1 sp.1 sp.2 d)) []) :=
      congrArg Prod.snd heq
    rw [hus, mem_sortByDesc] at hb
    have hb2 : b ∈ pr.2.foldl (appendSomeStep
        (fun sp => buildOneUptime (processEvents ss es EventTracker.new) pr.1 sp.1 sp.2 d)) [] := hb
    rcases mem_foldl_appendSome _ pr.2 [] b hb2 with h3 | ⟨sp, hsp, hsome⟩
    · simp at h3
    · rcases buildOneUptime_timeline hsome hev with ⟨r, hr, hbr⟩
      have hok : auraTripleOk r :=
        processEvents_auraOk ss es pr hpr sp hsp r hr
      have hst : ev.stacks = r.2.2 := by rw [hbr]
      have het : ev.event_type = r.2.1 := by rw [hbr]
      rw [het]
      exact hok (by rw [← hst]; exact h0)

/-- Aura-applied event of the C6 counterexample. -/
def c6Applied : RawEvent :=
  { etype := "SPELL_AURA_APPLIED",
    fields := ["SPELL_AURA_APPLIED", "Creature-X", "\"Srcmob\"", "0x10a48", "0x0",
               "Player-2-BBB", "\"Bob\"", "0x512", "0x0", "500", "\"Buff\"", "0x1"],
    ts := "t1", secs := 0 }

/-- `SPELL_AURA_REMOVED_DOSE` event with dose field `0` of the C6 counterexample. -/
def c6RemovedDose : RawEvent :=
  { etype := "SPELL_AURA_REMOVED_DOSE",
    fields := ["SPELL_AURA_REMOVED_DOSE", "Creature-X", "\"Srcmob\"", "0x10a48", "0x0",
               "Player-2-BBB", "\"Bob\"", "0x512", "0x0", "500", "\"Buff\"", "0x1",
               "0", "0", "0", "0"],
    ts := "t2", secs := 1 }

/-- C6 counterexample: a `SPELL_AURA_REMOVED_DOSE` with dose `0` materialises a
timeline entry with stack value `0` whose type is `stack`, not `remove`. -/
theorem removed_dose_zero_stack_in_timeline :
    (alookup "Player-2-BBB"
        (build_buff_uptimes (processEvents 0 [c6Applied, c6RemovedDose] EventTracker.new) 10)).map
      (fun us => us.map (fun b => b.timeline)) =
      some [[⟨0, "apply", 1⟩, ⟨(1 : ℚ), "stack", 0⟩]] ∧
    (⟨(1 : ℚ), "stack", 0⟩ : BuffEvent).event_type ≠ "remove" := by
  exact ⟨by with_unfolding_all decide, by decide⟩

/-- The `BuffUptime` that the C6 event stream materialises. -/
def c6U : BuffUptime :=
  { spell_id := 500, spell_name := "Buff", source_name := "Srcmob", uptime_secs := 10,
    uptime_pct := 100, avg_stacks := 1/10, max_stacks := 1,
    wh_url := "https://www.wowhead.com/spell=500",
    timeline := [⟨0, "apply", 1⟩, ⟨1, "stack", 0⟩] }

set_option maxRecDepth 8000 in
/-- Witness for the amended C6 statement at the concrete event stream. -/
theorem timeline_zero_stacks_non_apply_witness :
    (⟨(1 : ℚ), "stack", 0⟩ : BuffEvent).event_type = "remove" ∨
      (⟨(1 : ℚ), "stack", 0⟩ : BuffEvent).event_type = "stack" :=
  timeline_zero_stacks_non_apply 0 [c6Applied, c6RemovedDose] 10 "Player-2-BBB" [c6U]
    (by with_unfolding_all decide) c6U (List.mem_singleton.mpr rfl)
    ⟨(1 : ℚ), "stack", 0⟩ (by with_unfolding_all decide) rfl

/-! ## C1 — enemy breakdowns and destination GUIDs -/

/-- Every key of the inverted damage-targets map is a damaged destination name. -/
theorem invert_keys (dt : List (String × List (Nat × List (String × Nat))))
    (P : String → Prop)
    (h : ∀ pg ∈ dt, ∀ sp ∈ pg.2, ∀ tgt ∈ sp.2, P tgt.1) :
    ∀ pr ∈ invert_damage_targets dt, P pr.1 := by
  unfold invert_damage_targets
  refine foldl_preserve
    (fun m : List (String × List (String × Nat)) => ∀ pr ∈ m, P pr.1) _ (by simp) ?_
  intro tm pg hpg htm
  refine foldl_preserve
    (fun m : List (String × List (String × Nat)) => ∀ pr ∈ m, P pr.1) _ htm ?_
  intro tm2 sp hsp htm2
  refine foldl_preserve
    (fun m : List (String × List (String × Nat)) => ∀ pr ∈ m, P pr.1) _ htm2 ?_
  intro tm3 tgt htgt htm3
  exact aupdate_keys_forall P htm3 (h pg hpg sp hsp tgt htgt)

/-- C1 amended: every `EnemyBreakdown` names a destination that some player
source damaged — the map records destination names with no GUID-prefix filter,
so player destinations are not excluded. -/
theorem enemy_breakdowns_name_damaged_destinations (t : EventTracker) (bn : List String)
    (e : EnemyBreakdown) (he : e ∈ build_enemy_breakdowns t bn) :
    ∃ g sm sid tgts a, (g, sm) ∈ t.damage_targets ∧ (sid, tgts) ∈ sm ∧
      (e.target_name, a) ∈ tgts := by
  simp only [build_enemy_breakdowns] at he
  rw [mem_sortByDesc] at he
  rcases List.mem_map.mp he with ⟨e0, he0, henrich⟩
  rcases List.mem_map.mp he0 with ⟨pr, hpr, hmk⟩
  have hname : e.target_name = pr.1 := by rw [← henrich, ← hmk]
  rw [hname]
  refine invert_keys t.damage_targets
    (fun tn => ∃ g sm sid tgts a, (g, sm) ∈ t.damage_targets ∧ (sid, tgts) ∈ sm ∧
      (tn, a) ∈ tgts) ?_ pr hpr
  intro pg hpg sp hsp tgt htgt
  exact ⟨pg.1, pg.2, sp.1, sp.2, tgt.2, hpg, hsp, htgt⟩

/-- Tracker of the C1 witness. -/
def c1Tracker : EventTracker :=
  { EventTracker.new with damage_targets := [("Player-1", [(1, [("X", 5)])])] }

/-- The breakdown that `build_enemy_breakdowns c1Tracker []` materialises. -/
def c1Breakdown : EnemyBreakdown :=
  { target_name := "X", total_damage := 5, kill_count := 0, mob_type := "Trash",
    players := [{ player_name := "Player-1", class_name := "", damage := 5 }] }

/-- Witness for the amended C1 theorem at a concrete tracker. -/
theorem enemy_breakdowns_name_damaged_destinations_witness :
    ∃ g sm sid tgts a, (g, sm) ∈ c1Tracker.damage_targets ∧ (sid, tgts) ∈ sm ∧
      (c1Breakdown.target_name, a) ∈ tgts :=
  enemy_breakdowns_name_damaged_destinations c1Tracker [] c1Breakdown
    (by with_unfolding_all decide)

/-- Player-versus-player `SPELL_DAMAGE` event of the C1 counterexample: source
`Player-1-AAA` (Alice) damages destination `Player-2-BBB` (Bob) for 1000. -/
def pvpFields : List String :=
  ["SPELL_DAMAGE", "Player-1-AAA", "\"Alice\"", "0x511", "0x0",
   "Player-2-BBB", "\"Bob\"", "0x512", "0x0",
   "100", "\"Bolt\"", "0x4",
   "0", "0", "0", "0", "0", "0", "0", "0", "0", "0", "0", "0", "0", "0",
   "0", "0", "0", "0", "0",
   "1000", "0", "-1"]

/-- C1 counterexample: processing a player-on-player damage event produces an
`EnemyBreakdown` for the player destination's name — the destination carries
the `Player-` GUID prefix, so the claimed invariant fails. -/
theorem enemy_breakdown_for_player_destination :
    strStartsWith ((pvpFields.get? 5).getD "") "Player-" = true ∧
    ((pvpFields.get? 6).map unquote).getD "" = "Bob" ∧
    (build_enemy_breakdowns
        (process_combat_event "SPELL_DAMAGE" pvpFields "ts" 10 0 EventTracker.new) []).map
      (fun e => e.target_name) = ["Bob"] := by
  refine ⟨by decide, by decide, by with_unfolding_all decide⟩

end WowLog
